import Mathlib

/-!
# Streaming aggregation, join metadata and server context of proton

A shallow embedding of

* `src/Processors/Transforms/Streaming/UserDefinedEmitStrategyAggregatingTransform.cpp`
  (the two constructors and `finalize`),
* `src/Interpreters/Streaming/JoinStreamDescription.h`
  (the description record and its three predicates),
* `src/Storages/ExternalStream/ExternalStreamSettings.h` (the settings list),
* `src/Common/timeScale.h` (`nowSubsecond`), and
* `src/Interpreters/Context.cpp` (external tables, storage ID resolution, read
  settings, the drop check and the query status poll ID),

followed by the properties established for them.  Functions that those files call
but whose bodies live elsewhere are taken as parameters (`Aggregator`,
`Collaborators`) or, where a property is about them, written down from the
specification; every such definition says so in its doc comment.
-/

namespace DB
namespace Streaming

/-! ## Data model of the aggregating transform -/

/-- Modelled from the spec: `Core/Block.h` is not among the sources.  A block of
output rows is held column-wise: the ordered list of its columns, each column the
list of its cell values. -/
structure Block where
  data : List (List Int)
deriving DecidableEq, Repr

/-- Modelled from the spec: `Processors/Chunk.h` is not among the sources.  A chunk
is what a transform hands downstream: columns plus a row count. -/
structure Chunk where
  columns : List (List Int)
  num_rows : Nat
deriving DecidableEq, Repr

/-- The chunk context handed to `finalize`: a shared pointer, possibly null, to a
token naming the emission generation. -/
abbrev ChunkContextPtr := Option Nat

/-- Modelled from the spec: the aggregation state shard (`AggregatedDataVariants`,
declared outside the sources) is a hash table from a grouping-key byte sequence to
an aggregate-state byte buffer; it is kept here as its list of entries. -/
structure AggregatedDataVariants where
  groups : List (List Nat × List Nat)
deriving DecidableEq, Repr

/-- Modelled from the spec: `AggregatedDataVariants::empty()`, true when the shard
holds no group. -/
def AggregatedDataVariants.empty (v : AggregatedDataVariants) : Bool :=
  v.groups.isEmpty

/-- Modelled from the spec: `ManyAggregatedData` (declared outside the sources) is
the fixed-size array of state shards, one per worker. -/
structure ManyAggregatedData where
  variants : List AggregatedDataVariants
deriving DecidableEq, Repr

/-- Modelled from the spec: the constructor `ManyAggregatedData(num_threads)`
allocates `num_threads` shards, each of them empty. -/
def ManyAggregatedData.ofSize (num_threads : Nat) : ManyAggregatedData :=
  { variants := List.replicate num_threads { groups := [] } }

/-- The conversion purpose passed to the aggregator.  `finalize` only ever passes
`STREAMING_EMIT`; the other purposes of the enumeration are folded into `OTHER`. -/
inductive ConvertAction where
  | STREAMING_EMIT
  | OTHER
deriving DecidableEq, Repr

/-- The grouping mode `Aggregator::Params::GroupBy`.  The constructor only compares
it with `USER_DEFINED`; the remaining modes are folded into `OTHER`. -/
inductive GroupBy where
  | OTHER
  | USER_DEFINED
deriving DecidableEq, Repr

/-- The aggregator functions library, taken as a parameter: its two conversions
receive the shard by mutable reference, the conversion purpose and the thread
count, and return the list of result blocks together with the shard as they
leave it. -/
structure Aggregator where
  convertToBlocksFinal :
    AggregatedDataVariants → ConvertAction → Nat → List Block × AggregatedDataVariants
  convertToBlocksIntermediate :
    AggregatedDataVariants → ConvertAction → Nat → List Block × AggregatedDataVariants

/-- The fields of `AggregatingTransformParams` that the transform reads:
`params->aggregator`, `params->final`, `params->emit_version` and
`params->params.group_by`. -/
structure AggregatingTransformParams where
  aggregator : Aggregator
  final : Bool
  emit_version : Bool
  group_by : GroupBy

/-- The calls `finalize` makes on the aggregator and on its base class, in the
order they are made. -/
inductive Call where
  | convertToBlocksFinal
  | convertToBlocksIntermediate
  | emitVersion
  | setCurrentChunk
deriving DecidableEq, Repr

/-- The state of a `UserDefinedEmitStrategyAggregatingTransform`: the members the
base-class constructor is given, the current chunk with the context it was tagged
with, the counter behind `emitVersion`, and the log of calls made so far. -/
structure UserDefinedEmitStrategyAggregatingTransform where
  header : Block
  params : AggregatingTransformParams
  many_data : ManyAggregatedData
  current_variant : Nat
  max_threads : Nat
  temporary_data_merge_threads : Nat
  current_chunk : Option (Chunk × ChunkContextPtr)
  version : Int
  calls : List Call

/-- The helpers `finalize` calls whose bodies are outside the sources, taken as
parameters: `Block::operator bool`, `convertToChunk`, and the effect of
`AggregatingTransform::emitVersion` on the block and on the version counter. -/
structure Collaborators where
  operatorBool : Block → Bool
  convertToChunk : Block → Chunk
  emitVersion : Block → Int → Block × Int

namespace UserDefinedEmitStrategyAggregatingTransform

/-- Six-argument constructor (lines 17-35): forwards its arguments to the base class,
which keeps them as members, then asserts the grouping mode.  A failed assertion
is `none`. -/
def ctorFull (header : Block) (params_ : AggregatingTransformParams)
    (many_data_ : ManyAggregatedData) (current_variant_ max_threads_ : Nat)
    (temporary_data_merge_threads_ : Nat) :
    Option UserDefinedEmitStrategyAggregatingTransform :=
  if params_.group_by = GroupBy.USER_DEFINED then
    some
      { header := header
        params := params_
        many_data := many_data_
        current_variant := current_variant_
        max_threads := max_threads_
        temporary_data_merge_threads := temporary_data_merge_threads_
        current_chunk := none
        version := 0
        calls := [] }
  else none

/-- Two-argument constructor (lines 12-15): delegates to the six-argument one with
`ManyAggregatedData(1)`, `0`, `1`, `1`. -/
def ctor (header : Block) (params_ : AggregatingTransformParams) :
    Option UserDefinedEmitStrategyAggregatingTransform :=
  ctorFull header params_ (ManyAggregatedData.ofSize 1) 0 1 1

/-- The shard `*many_data->variants[current_variant]`; `none` when the index is out
of range. -/
def currentVariants (t : UserDefinedEmitStrategyAggregatingTransform) :
    Option AggregatedDataVariants :=
  t.many_data.variants[t.current_variant]?

/-- Write-back through the reference `variants`: the shard at `current_variant`
becomes `v`, every other shard is kept. -/
def storeVariants (t : UserDefinedEmitStrategyAggregatingTransform)
    (v : AggregatedDataVariants) : UserDefinedEmitStrategyAggregatingTransform :=
  { t with many_data := { variants := t.many_data.variants.set t.current_variant v } }

/-- Append one call to the log. -/
def logCall (t : UserDefinedEmitStrategyAggregatingTransform) (c : Call) :
    UserDefinedEmitStrategyAggregatingTransform :=
  { t with calls := t.calls ++ [c] }

/-- The call `emitVersion(block)`: the block and the version counter become what the
helper returns. -/
def emitVersion (ext : Collaborators) (t : UserDefinedEmitStrategyAggregatingTransform)
    (block : Block) : Block × UserDefinedEmitStrategyAggregatingTransform :=
  ((ext.emitVersion block t.version).1,
   { t with version := (ext.emitVersion block t.version).2,
            calls := t.calls ++ [Call.emitVersion] })

/-- Modelled from the spec: `AggregatingTransform::setCurrentChunk(chunk, chunk_ctx)`
(base class, outside the sources) makes `chunk` the current chunk and tags it with
the chunk context, which it does not look into. -/
def setCurrentChunk (t : UserDefinedEmitStrategyAggregatingTransform) (chunk : Chunk)
    (chunk_ctx : ChunkContextPtr) : UserDefinedEmitStrategyAggregatingTransform :=
  { t with current_chunk := some (chunk, chunk_ctx),
           calls := t.calls ++ [Call.setCurrentChunk] }

/-- Lines 61-62 of `finalize`:
`if (block) setCurrentChunk(convertToChunk(block), chunk_ctx);`. -/
def emitBlock (ext : Collaborators) (t : UserDefinedEmitStrategyAggregatingTransform)
    (block : Block) (chunk_ctx : ChunkContextPtr) :
    UserDefinedEmitStrategyAggregatingTransform :=
  if ext.operatorBool block then t.setCurrentChunk (ext.convertToChunk block) chunk_ctx
  else t

/-- Lines 44-59 of `finalize`: the local `block` is filled from the shard `variants`
by the conversion the result mode selects, and in final mode gets its version column
when one is requested.  The result is `none` when the conversion does not return
exactly one block (`assert(results.size() == 1)` followed by `results.back()`). -/
def convertVariants (ext : Collaborators) (t : UserDefinedEmitStrategyAggregatingTransform)
    (variants : AggregatedDataVariants) :
    Option (Block × UserDefinedEmitStrategyAggregatingTransform) :=
  if t.params.final then
    match t.params.aggregator.convertToBlocksFinal variants ConvertAction.STREAMING_EMIT 1 with
    | ([block], variants_after) =>
      if t.params.emit_version then
        some (emitVersion ext
          ((t.storeVariants variants_after).logCall Call.convertToBlocksFinal) block)
      else
        some (block, (t.storeVariants variants_after).logCall Call.convertToBlocksFinal)
    | _ => none
  else
    match t.params.aggregator.convertToBlocksIntermediate variants ConvertAction.STREAMING_EMIT 1 with
    | ([block], variants_after) =>
      some (block, (t.storeVariants variants_after).logCall Call.convertToBlocksIntermediate)
    | _ => none

/-- Translation of `finalize(chunk_ctx)` (lines 37-63).  The result is `none` when
the code has no defined behaviour: `current_variant` out of range, or a failed
assertion in `convertVariants`. -/
def finalize (ext : Collaborators) (t : UserDefinedEmitStrategyAggregatingTransform)
    (chunk_ctx : ChunkContextPtr) : Option UserDefinedEmitStrategyAggregatingTransform :=
  match t.currentVariants with
  | none => none
  | some variants =>
    if variants.empty then some t
    else
      match convertVariants ext t variants with
      | none => none
      | some (block, t_converted) => some (emitBlock ext t_converted block chunk_ctx)

/-- The chunk a `finalize` step from `before` to `after` emitted, with the context it
carries: the current chunk of `after` when the step called `setCurrentChunk`, nothing
otherwise. -/
def emittedChunk (before after : UserDefinedEmitStrategyAggregatingTransform) :
    Option (Chunk × ChunkContextPtr) :=
  if Call.setCurrentChunk ∈ after.calls.drop before.calls.length then after.current_chunk
  else none

end UserDefinedEmitStrategyAggregatingTransform

/-! ## Join stream description -/

/-- Modelled from the spec: the stream semantic tag (`DataStreamSemanticEx`, declared
outside the sources) is one of four kinds. -/
inductive DataStreamSemanticEx where
  | Append
  | Changelog
  | ChangelogKV
  | VersionedKV
deriving DecidableEq, Repr

/-- Modelled from the spec: the duplicate-handling mode of the join (`JoinStrictness`,
declared outside the sources), ANY or ALL match semantics. -/
inductive JoinStrictness where
  | Any
  | All
deriving DecidableEq, Repr

/-- Modelled from the spec: the resolved schema of one joined input
(`TableWithColumnNamesAndTypes`, declared outside the sources): the column names in
row order, the declared primary-key column set and the declared version column.
Column types are not consulted by the position derivation and are left out. -/
structure TableWithColumnNamesAndTypes where
  columns : List String
  primary_key : List String
  version_column : Option String
deriving DecidableEq, Repr

/-- The record `JoinStreamDescription` (lines 44-79).  `table_with_columns` is a
reference in the source and a value here; `keep_versions` is a `UInt64`. -/
structure JoinStreamDescription where
  table_with_columns : TableWithColumnNamesAndTypes
  input_header : Block
  data_stream_semantic : DataStreamSemanticEx
  keep_versions : Nat
  primary_key_column_positions : Option (List Nat)
  version_column_position : Option Nat
  delta_column_position : Option Nat
deriving DecidableEq, Repr

namespace JoinStreamDescription

/-- The four-argument constructor (lines 19-25): the three position members are not
mentioned by the initialiser list and start out absent. -/
def ctor (table_with_columns_ : TableWithColumnNamesAndTypes) (input_header_ : Block)
    (data_stream_semantic_ : DataStreamSemanticEx) (keep_versions_ : Nat) :
    JoinStreamDescription :=
  { table_with_columns := table_with_columns_
    input_header := input_header_
    data_stream_semantic := data_stream_semantic_
    keep_versions := keep_versions_
    primary_key_column_positions := none
    version_column_position := none
    delta_column_position := none }

/-- The move constructor (lines 27-35): its initialiser list names every member
except `delta_column_position`, which therefore starts out absent. -/
def moveCtor (other : JoinStreamDescription) : JoinStreamDescription :=
  { table_with_columns := other.table_with_columns
    input_header := other.input_header
    data_stream_semantic := other.data_stream_semantic
    keep_versions := other.keep_versions
    primary_key_column_positions := other.primary_key_column_positions
    version_column_position := other.version_column_position
    delta_column_position := none }

/-- Line 37:
`primary_key_column_positions.has_value() && !primary_key_column_positions->empty()`. -/
def hasPrimaryKey (d : JoinStreamDescription) : Bool :=
  match d.primary_key_column_positions with
  | none => false
  | some positions => !positions.isEmpty

/-- Line 38: `version_column_position.has_value()`. -/
def hasVersionColumn (d : JoinStreamDescription) : Bool :=
  d.version_column_position.isSome

/-- Line 39: `delta_column_position.has_value()`. -/
def hasDeltaColumn (d : JoinStreamDescription) : Bool :=
  d.delta_column_position.isSome

end JoinStreamDescription

/-- The failures of building a join stream description. -/
inductive BuildError where
  | SchemaMismatch
deriving DecidableEq, Repr

/-- Offset of the column called `name` in a schema, if there is one. -/
def positionByName (columns : List String) (name : String) : Option Nat :=
  if columns.indexOf name < columns.length then some (columns.indexOf name) else none

/-- Offsets of all the columns called `names`, in order; absent as soon as one name
is not in the schema. -/
def positionsByName (columns : List String) : List String → Option (List Nat)
  | [] => some []
  | name :: names =>
    match positionByName columns name, positionsByName columns names with
    | some p, some ps => some (p :: ps)
    | _, _ => none

/-- Modelled from the spec: step 1 of the position derivation, whose body
(`JoinStreamDescription::calculateColumnPositions`) is outside the sources.  For a
`VersionedKV` input the declared primary-key columns and the declared version column
are located by name; a key or version column the semantic requires and the schema
does not have is a `SchemaMismatch`.  Other semantics record neither. -/
def locateKeyAndVersion (d : JoinStreamDescription) : Except BuildError JoinStreamDescription :=
  if d.data_stream_semantic = DataStreamSemanticEx.VersionedKV then
    match d.table_with_columns.primary_key, d.table_with_columns.version_column with
    | [], _ => Except.error BuildError.SchemaMismatch
    | _ :: _, none => Except.error BuildError.SchemaMismatch
    | key :: keys, some version_name =>
      match positionsByName d.table_with_columns.columns (key :: keys),
            positionByName d.table_with_columns.columns version_name with
      | some positions, some version_position =>
        Except.ok { d with primary_key_column_positions := some positions,
                           version_column_position := some version_position }
      | _, _ => Except.error BuildError.SchemaMismatch
  else Except.ok d

/-- Modelled from the spec: step 2 of the position derivation.  The delta column is
located by its reserved name for `ChangelogKV` and `Changelog` inputs; its absence
is a `SchemaMismatch` for `ChangelogKV` and no error for `Changelog`. -/
def locateDelta (delta_column_name : String) (d : JoinStreamDescription) :
    Except BuildError JoinStreamDescription :=
  match d.data_stream_semantic with
  | DataStreamSemanticEx.ChangelogKV =>
    match positionByName d.table_with_columns.columns delta_column_name with
    | some p => Except.ok { d with delta_column_position := some p }
    | none => Except.error BuildError.SchemaMismatch
  | DataStreamSemanticEx.Changelog =>
    Except.ok
      { d with
        delta_column_position := positionByName d.table_with_columns.columns delta_column_name }
  | _ => Except.ok d

/-- Modelled from the spec: `JoinStreamDescription::calculateColumnPositions`
(declared on line 42, body outside the sources), steps 1 to 3 of the derivation:
key and version positions, delta position, and `keep_versions` equal to 1 under ANY
strictness and to the configured count under ALL.  The reserved name of the delta
column is a parameter. -/
def JoinStreamDescription.calculateColumnPositions (d : JoinStreamDescription)
    (strictness : JoinStrictness) (delta_column_name : String) :
    Except BuildError JoinStreamDescription :=
  match locateKeyAndVersion d with
  | Except.error e => Except.error e
  | Except.ok d1 =>
    match locateDelta delta_column_name d1 with
    | Except.error e => Except.error e
    | Except.ok d2 =>
      match strictness with
      | JoinStrictness.Any => Except.ok { d2 with keep_versions := 1 }
      | JoinStrictness.All => Except.ok d2

/-! ## Retraction resolver -/

/-- A row is the list of its cells, addressed by integer offset. -/
abbrev Row := List Int

/-- Modelled from the spec: the effect a resolved row has on the join's match state.
The locator of `Retract` and `Upsert` is the previously inserted row that is
retracted. -/
inductive Action where
  | Insert
  | Retract (locator : Row)
  | Upsert (locator : Row)
deriving DecidableEq, Repr

/-- The failures of resolving a row. -/
inductive ResolveError where
  | ConsistencyViolation
deriving DecidableEq, Repr

/-- The outcome of resolving one row: the action (`none` when the row is dropped),
the retained rows afterwards, newest first, and how many prior-row lookups were
made, a lookup being a search of the retained rows for the row that the incoming
row retracts or supersedes. -/
structure Resolution where
  action : Option Action
  retained : List Row
  lookups : Nat
deriving DecidableEq, Repr

/-- The cells of `row` at the given offsets. -/
def project (positions : List Nat) (row : Row) : List (Option Int) :=
  positions.map (fun p => row[p]?)

/-- The primary-key offsets of a description, none when the list is absent. -/
def keyPositions (d : JoinStreamDescription) : List Nat :=
  d.primary_key_column_positions.getD []

/-- Modelled from the spec: whether the retained row `prior` is the one an explicit
retraction `row` retracts: it has the same join key and, when the side has a primary
key, the same primary key, otherwise the same cells at every offset other than the
delta column. -/
def retractionMatch (d : JoinStreamDescription) (join_key_positions : List Nat)
    (delta_position : Nat) (row prior : Row) : Bool :=
  decide (project join_key_positions prior = project join_key_positions row) &&
    (if d.hasPrimaryKey then
      decide (project (keyPositions d) prior = project (keyPositions d) row)
    else
      decide (prior.eraseIdx delta_position = row.eraseIdx delta_position))

/-- Modelled from the spec: whether the retained row `prior` is an existing row for
the key of the versioned row `row`: same join key and same primary key. -/
def upsertMatch (d : JoinStreamDescription) (join_key_positions : List Nat)
    (row prior : Row) : Bool :=
  decide (project join_key_positions prior = project join_key_positions row) &&
    decide (project (keyPositions d) prior = project (keyPositions d) row)

/-- Modelled from the spec: whether the version of `row` is strictly greater than the
version of `prior`. -/
def versionGreater (version_position : Nat) (row prior : Row) : Bool :=
  match row[version_position]?, prior[version_position]? with
  | some incoming, some existing => decide (existing < incoming)
  | _, _ => false

/-- Modelled from the spec: whether two rows belong to the same key for the purpose of
`keep_versions`: the primary key when the side has one, the join key otherwise. -/
def sameKey (d : JoinStreamDescription) (join_key_positions : List Nat)
    (row other : Row) : Bool :=
  if d.hasPrimaryKey then
    decide (project (keyPositions d) other = project (keyPositions d) row)
  else
    decide (project join_key_positions other = project join_key_positions row)

/-- Modelled from the spec: `keep_versions` bounds the rows retained per key; of the
rows selected by `same`, listed newest first, the newest `keep` stay and the older
ones are evicted. -/
def evict (same : Row → Bool) : Nat → List Row → List Row
  | _, [] => []
  | keep, r :: rs =>
    if same r then
      match keep with
      | 0 => evict same 0 rs
      | k + 1 => r :: evict same k rs
    else r :: evict same keep rs

/-- Modelled from the spec: retaining a newly inserted row on a side whose rows can
later be retracted or superseded, then evicting beyond `keep_versions`. -/
def retain (d : JoinStreamDescription) (join_key_positions : List Nat)
    (retained : List Row) (row : Row) : List Row :=
  evict (sameKey d join_key_positions row) d.keep_versions (row :: retained)

/-- The delta offset of a description when `row` is an explicit retraction: the side
has a delta column and the cell of `row` there is `-1`. -/
def explicitRetraction (d : JoinStreamDescription) (row : Row) : Option Nat :=
  match d.delta_column_position with
  | some delta_position => if row[delta_position]? = some (-1) then some delta_position else none
  | none => none

/-- Modelled from the spec: the Retraction Resolver `resolve(row, description)`, which
lives in the hash-join code outside the sources.  An explicit retraction (delta
column present, delta `-1`) locates the newest matching retained row and fails with
`ConsistencyViolation` when there is none; otherwise a row of a side with a version
column is an insert when its key is new, an upsert when its version is strictly
greater than the retained one, and dropped when it is not; any other row is an insert
made without a lookup.  On a side with a delta column the inserted row joins the
history kept for retraction matching, bounded by `keep_versions`; on a side with
neither delta nor version column the insert is pure: the row is added and the
retained rows are not examined. -/
def resolve (d : JoinStreamDescription) (join_key_positions : List Nat)
    (retained : List Row) (row : Row) : Except ResolveError Resolution :=
  match explicitRetraction d row with
  | some delta_position =>
    match retained.find? (retractionMatch d join_key_positions delta_position row) with
    | none => Except.error ResolveError.ConsistencyViolation
    | some prior =>
      Except.ok
        { action := some (Action.Retract prior), retained := retained.erase prior, lookups := 1 }
  | none =>
    match d.version_column_position with
    | some version_position =>
      match retained.find? (upsertMatch d join_key_positions row) with
      | none =>
        Except.ok
          { action := some Action.Insert
            retained := retain d join_key_positions retained row
            lookups := 1 }
      | some prior =>
        if versionGreater version_position row prior then
          Except.ok
            { action := some (Action.Upsert prior)
              retained := retain d join_key_positions (retained.erase prior) row
              lookups := 1 }
        else Except.ok { action := none, retained := retained, lookups := 1 }
    | none =>
      match d.delta_column_position with
      | some _ =>
        Except.ok
          { action := some Action.Insert
            retained := retain d join_key_positions retained row
            lookups := 0 }
      | none =>
        Except.ok { action := some Action.Insert, retained := row :: retained, lookups := 0 }

/-! ## Modelled collaborators of `finalize` -/

/-- Number of rows of a block: the length of its first column. -/
def Block.rows (b : Block) : Nat :=
  match b.data with
  | [] => 0
  | column :: _ => column.length

/-- Modelled from the spec: the aggregator's conversions
(`Aggregator::convertToBlocksFinal` and `convertToBlocksIntermediate`, bodies outside
the sources) drain the shard.  Each returns a single block with one row per group
and leaves the shard empty: the final form holds one scalar per group (the sum of
the state bytes), the intermediate form the group's state size and that sum. -/
def drainingAggregator : Aggregator :=
  { convertToBlocksFinal := fun v _ _ =>
      ([{ data := [v.groups.map (fun g => (g.1.sum : Int)),
                   v.groups.map (fun g => (g.2.sum : Int))] }],
       { groups := [] })
    convertToBlocksIntermediate := fun v _ _ =>
      ([{ data := [v.groups.map (fun g => (g.1.sum : Int)),
                   v.groups.map (fun g => (g.2.length : Int)),
                   v.groups.map (fun g => (g.2.sum : Int))] }],
       { groups := [] }) }

/-- Modelled from the spec: a finalize conversion fully drains the shard it is given,
in either result mode. -/
def Aggregator.Drains (agg : Aggregator) : Prop :=
  ∀ v : AggregatedDataVariants,
    (agg.convertToBlocksFinal v ConvertAction.STREAMING_EMIT 1).2.empty = true ∧
    (agg.convertToBlocksIntermediate v ConvertAction.STREAMING_EMIT 1).2.empty = true

/-- The condition asserted after each conversion in `finalize`
(`assert(results.size() == 1)`): with one thread a conversion returns exactly one
block. -/
def Aggregator.SingleBlock (agg : Aggregator) : Prop :=
  ∀ v : AggregatedDataVariants,
    (agg.convertToBlocksFinal v ConvertAction.STREAMING_EMIT 1).1.length = 1 ∧
    (agg.convertToBlocksIntermediate v ConvertAction.STREAMING_EMIT 1).1.length = 1

/-- Modelled from the spec: the helpers of the base transform, outside the sources.
`emitVersion` attaches a version column whose every cell is the current version
value and advances the counter; a block counts as present when it has a column; a
chunk keeps the columns and the row count of its block. -/
def specCollaborators : Collaborators :=
  { operatorBool := fun b => !b.data.isEmpty
    convertToChunk := fun b => { columns := b.data, num_rows := b.rows }
    emitVersion := fun b version =>
      ({ data := b.data ++ [List.replicate b.rows version] }, version + 1) }

/-- A transform in the given modes whose single shard holds two groups. -/
def sampleTransform (final emit_version : Bool) : UserDefinedEmitStrategyAggregatingTransform :=
  { header := { data := [] }
    params :=
      { aggregator := drainingAggregator
        final := final
        emit_version := emit_version
        group_by := GroupBy.USER_DEFINED }
    many_data := { variants := [{ groups := [([1], [10, 5]), ([2], [7])] }] }
    current_variant := 0
    max_threads := 1
    temporary_data_merge_threads := 1
    current_chunk := none
    version := 0
    calls := [] }

/-- A transform as the two-argument constructor leaves it: one shard, still empty. -/
def idleTransform : UserDefinedEmitStrategyAggregatingTransform :=
  { header := { data := [] }
    params :=
      { aggregator := drainingAggregator
        final := true
        emit_version := true
        group_by := GroupBy.USER_DEFINED }
    many_data := ManyAggregatedData.ofSize 1
    current_variant := 0
    max_threads := 1
    temporary_data_merge_threads := 1
    current_chunk := none
    version := 0
    calls := [] }

/-- The schema `(k, v, val)` with primary key `k` and version column `v`. -/
def versionedSchema : TableWithColumnNamesAndTypes :=
  { columns := ["k", "v", "val"], primary_key := ["k"], version_column := some "v" }

/-- A `VersionedKV` side over `versionedSchema` with `keep_versions = 1`: key at
offset 0, version at offset 1, no delta column. -/
def versionedDescription : JoinStreamDescription :=
  { table_with_columns := versionedSchema
    input_header := { data := [] }
    data_stream_semantic := DataStreamSemanticEx.VersionedKV
    keep_versions := 1
    primary_key_column_positions := some [0]
    version_column_position := some 1
    delta_column_position := none }

/-- The schema `(k, _tp_delta, val)` of a changelog input, without declared key. -/
def changelogSchema : TableWithColumnNamesAndTypes :=
  { columns := ["k", "_tp_delta", "val"], primary_key := [], version_column := none }

/-- A `ChangelogKV` side over `changelogSchema`: delta column at offset 1, neither
key nor version positions. -/
def changelogDescription : JoinStreamDescription :=
  { table_with_columns := changelogSchema
    input_header := { data := [] }
    data_stream_semantic := DataStreamSemanticEx.ChangelogKV
    keep_versions := 1
    primary_key_column_positions := none
    version_column_position := none
    delta_column_position := some 1 }

/-- The schema `(k, val)` of an append-only input. -/
def appendSchema : TableWithColumnNamesAndTypes :=
  { columns := ["k", "val"], primary_key := [], version_column := none }

/-- An `Append` side over `appendSchema`: no key, version or delta position. -/
def appendDescription : JoinStreamDescription :=
  { table_with_columns := appendSchema
    input_header := { data := [] }
    data_stream_semantic := DataStreamSemanticEx.Append
    keep_versions := 1
    primary_key_column_positions := none
    version_column_position := none
    delta_column_position := none }

/-- Modelled from the spec: the version column `emitVersion` attaches to a block is
its last column, so it is the last column of the chunk emitted for that block. -/
def versionColumn (chunk : Chunk) : Option (List Int) :=
  chunk.columns.getLast?

end Streaming

/-! ## Error codes -/

/-- The error codes thrown by the functions embedded below. -/
inductive ErrorCode where
  | LOGICAL_ERROR
  | STREAM_ALREADY_EXISTS
  | UNKNOWN_STREAM
  | UNKNOWN_DATABASE
  | UNKNOWN_READ_METHOD
  | INVALID_SETTING_VALUE
  | STREAM_SIZE_EXCEEDS_MAX_DROP_SIZE_LIMIT
  | BAD_ARGUMENTS
  | ACCESS_DENIED
  | INVALID_POLL_ID
  | CANNOT_CLOCK_GETTIME
deriving DecidableEq, Repr

/-! ## External stream settings (`Storages/ExternalStream/ExternalStreamSettings.h`) -/

/-- The value of a setting: the list only uses the types `String` and `UInt64`. -/
inductive SettingValue where
  | string (value : String)
  | uint64 (value : Nat)
deriving DecidableEq, Repr

/-- One entry `M(TYPE, NAME, DEFAULT, DESCRIPTION, FLAGS)` of a settings list; the
type is carried by the default value. -/
structure SettingDeclaration where
  name : String
  default_value : SettingValue
  description : String
  flags : Nat
deriving DecidableEq, Repr

/-- The list `EXTERNAL_STREAM_RELATED_SETTINGS` (lines 10-27), entry by entry. -/
def EXTERNAL_STREAM_RELATED_SETTINGS : List SettingDeclaration :=
  [ { name := "type", default_value := SettingValue.string "",
      description := "External stream type", flags := 0 },
    { name := "brokers", default_value := SettingValue.string "",
      description := "A comma-separated list of brokers, for example Kafka brokers.",
      flags := 0 },
    { name := "topic", default_value := SettingValue.string "",
      description := "topic, for example Kafka topic name.", flags := 0 },
    { name := "security_protocol", default_value := SettingValue.string "plaintext",
      description := "The protocol to connection external logstore", flags := 0 },
    { name := "username", default_value := SettingValue.string "",
      description := "The username of external logstore", flags := 0 },
    { name := "password", default_value := SettingValue.string "",
      description := "The password of external logstore", flags := 0 },
    { name := "log_files", default_value := SettingValue.string "",
      description := "A comma-separated list of log files", flags := 0 },
    { name := "log_dir", default_value := SettingValue.string "",
      description := "log root directory", flags := 0 },
    { name := "timestamp_regex", default_value := SettingValue.string "",
      description := "Regex to extract log timestamp", flags := 0 },
    { name := "hash_bytes", default_value := SettingValue.uint64 1024,
      description := "File bytes to hash to decide if the same file", flags := 0 },
    { name := "data_format", default_value := SettingValue.string "",
      description := "The message format, for example JSONEachRow", flags := 0 },
    { name := "row_delimiter", default_value := SettingValue.string "\n",
      description := "The string to be considered as a delimiter in raw message.",
      flags := 0 },
    { name := "max_row_length", default_value := SettingValue.uint64 4096,
      description := "Max row length", flags := 0 },
    { name := "data_schema", default_value := SettingValue.string "",
      description := "Schema identifier (used by schema-based formats)", flags := 0 } ]

/-- The settings object `ExternalStreamSettings`: the current value of every declared
setting, by name.  The format-factory settings appended by
`LIST_OF_EXTERNAL_STREAM_SETTINGS` are declared outside the sources and are passed
in. -/
structure ExternalStreamSettings where
  values : List (String × SettingValue)
deriving DecidableEq, Repr

/-- Default construction through `BaseSettings`: every declared setting holds the
`DEFAULT` of its entry. -/
def ExternalStreamSettings.ctor (FORMAT_FACTORY_SETTINGS : List SettingDeclaration) :
    ExternalStreamSettings :=
  { values := (EXTERNAL_STREAM_RELATED_SETTINGS ++ FORMAT_FACTORY_SETTINGS).map
      (fun declaration => (declaration.name, declaration.default_value)) }

/-- Reading the setting called `name`. -/
def ExternalStreamSettings.get (settings : ExternalStreamSettings) (name : String) :
    Option SettingValue :=
  settings.values.lookup name

/-! ## Sub-second clock (`Common/timeScale.h`) -/

/-- The value a signed 64-bit variable holds after being assigned the integer `n`
(two's complement wrap-around). -/
def wrapInt64 (n : Int) : Int :=
  (n + 2 ^ 63) % 2 ^ 64 - 2 ^ 63

/-- The value a signed 32-bit variable holds after being assigned the integer `n`. -/
def wrapInt32 (n : Int) : Int :=
  (n + 2 ^ 31) % 2 ^ 32 - 2 ^ 31

/-- The pair `DecimalUtils::DecimalComponents<DateTime64>`: whole and fractional part,
both signed 64-bit. -/
structure DecimalComponents where
  whole : Int
  fractional : Int
deriving DecidableEq, Repr

/-- Translation of `nowSubsecond(scale)` (lines 14-35).  The clock reading
`(tv_sec, tv_nsec)` is an input, `none` standing for a failed `clock_gettime`; the
helper `intExp10` (`Common/intExp.h`, outside the sources, unsigned 64-bit result) is
a parameter.  The result is the components and the scale handed to
`decimalFromComponents`.  It is `none` where the source has no defined behaviour:
signed overflow of `adjust_scale` and division by zero.  The product and the quotient
are formed in unsigned 64-bit arithmetic and stored back into the signed
`fractional`. -/
def nowSubsecond (intExp10 : Int → Nat) (clock : Option (Int × Int)) (scale : Nat) :
    Option (Except ErrorCode (DecimalComponents × Nat)) :=
  match clock with
  | none => some (Except.error ErrorCode.CANNOT_CLOCK_GETTIME)
  | some (tv_sec, tv_nsec) =>
    if 2 ^ 31 ≤ 9 - wrapInt32 scale then none
    else if 9 - wrapInt32 scale < 0 then
      some (Except.ok
        ({ whole := tv_sec
           fractional :=
             wrapInt64 (tv_nsec * (intExp10 ((9 - wrapInt32 scale).natAbs : Int) : Int)) },
          scale))
    else if 9 - wrapInt32 scale > 0 then
      if intExp10 (9 - wrapInt32 scale) = 0 then none
      else
        some (Except.ok
          ({ whole := tv_sec
             fractional :=
               wrapInt64 (tv_nsec % 2 ^ 64 / (intExp10 (9 - wrapInt32 scale) : Int)) }, scale))
    else some (Except.ok ({ whole := tv_sec, fractional := tv_nsec }, scale))

/-- The power of ten that `intExp10(x)` stands for in the comment of lines 24-27
(`intExp10(3)` is 1000), used to evaluate `nowSubsecond` on concrete readings. -/
def exactIntExp10 (x : Int) : Nat :=
  10 ^ x.toNat

/-! ## Server context (`Interpreters/Context.cpp`) -/

/-- A table UUID; `UUIDHelpers::Nil` is the zero value. -/
abbrev UUID := Nat

/-- The nil UUID `UUIDHelpers::Nil`. -/
def UUIDHelpers.Nil : UUID := 0

/-- The record `StorageID` (declared outside the sources): database name, table name
and UUID. -/
structure StorageID where
  database_name : String
  table_name : String
  uuid : UUID
deriving DecidableEq, Repr

namespace StorageID

/-- The value of `StorageID::createEmpty()`: no names, nil UUID. -/
def createEmpty : StorageID :=
  { database_name := "", table_name := "", uuid := UUIDHelpers.Nil }

/-- The test `hasUUID()`: the UUID is not nil. -/
def hasUUID (storage_id : StorageID) : Bool :=
  decide (storage_id.uuid ≠ UUIDHelpers.Nil)

/-- The conversion `operator bool`: false exactly when, in the words of the message of
line 2969, both stream name and UUID are empty. -/
def toBool (storage_id : StorageID) : Bool :=
  !(decide (storage_id.table_name = "") && !storage_id.hasUUID)

/-- The name `getFullNameNotQuoted()`: `database.table`, as the comment of line 3426
writes it. -/
def getFullNameNotQuoted (storage_id : StorageID) : String :=
  storage_id.database_name ++ "." ++ storage_id.table_name

end StorageID

/-- A temporary table holder, reduced to what the context reads from it: the result
of `getGlobalTableID()` and the storage returned by `getTable()`. -/
structure TemporaryTableHolder where
  global_table_id : StorageID
  table : Nat
deriving DecidableEq, Repr

/-- The bit set `StorageNamespace`, one field per flag tested by
`resolveStorageIDImpl`. -/
structure StorageNamespace where
  ResolveGlobal : Bool
  ResolveCurrentDatabase : Bool
  ResolveExternal : Bool
deriving DecidableEq, Repr

/-- The settings read by `getReadSettings` and by the throttler getter. -/
structure Settings where
  local_filesystem_read_method : String
  remote_filesystem_read_method : String
  local_filesystem_read_prefetch : Bool
  remote_filesystem_read_prefetch : Bool
  load_marks_asynchronously : Bool
  remote_fs_read_max_backoff_ms : Nat
  remote_fs_read_backoff_max_tries : Nat
  enable_filesystem_cache : Bool
  read_from_filesystem_cache_if_exists_otherwise_bypass_cache : Bool
  enable_filesystem_cache_log : Bool
  enable_filesystem_cache_on_lower_level : Bool
  max_query_cache_size : Nat
  skip_download_if_exceeds_query_cache : Bool
  remote_read_min_bytes_for_seek : Nat
  max_read_buffer_size : Nat
  min_bytes_to_use_direct_io : Nat
  min_bytes_to_use_mmap_io : Nat
  read_priority : Nat
  http_max_tries : Nat
  http_retry_initial_backoff_ms : Nat
  http_retry_max_backoff_ms : Nat
  http_skip_not_found_url_for_globs : Bool
  max_remote_read_network_bandwidth_for_server : Nat
deriving DecidableEq, Repr

/-- A throttler, reduced to the bandwidth it is created with. -/
structure Throttler where
  max_speed : Nat
deriving DecidableEq, Repr

/-- The members of `Context` and of its shared part that the embedded functions read
or write.  `address` stands for the identity of the object (`this`); the two weak
pointers hold the address they lock to, or nothing when null or expired;
`is_global_context` is the answer of `isGlobalContext()`. -/
structure Context where
  address : Nat
  is_global_context : Bool
  external_tables_mapping : List (String × TemporaryTableHolder)
  query_context : Option Nat
  session_context : Option Nat
  current_database : String
  settings : Settings
  flags_path : String
  remote_read_throttler : Option Throttler
  mmap_cache : Option Nat
  current_query_id : String
  insertion_table : StorageID
  user_name : String
  node_identity : String
  query_status_poll_id : String
  block_base_id : Nat
deriving DecidableEq, Repr

/-- The context objects alive, by address. -/
abbrev ContextHeap := Nat → Option Context

/-- The call `lock()` on a weak context pointer. -/
def lockContext (heap : ContextHeap) (pointer : Option Nat) : Option Context :=
  pointer.bind heap

/-- The result type `Tables`: storages by table name. -/
abbrev Tables := List (String × Nat)

/-- The call `res.insert(buf.begin(), buf.end())` on a map: entries of `buf` whose key
is not yet in `res` are added. -/
def Tables.insertRange (res buf : Tables) : Tables :=
  res ++ buf.filter (fun entry => (res.lookup entry.1).isNone)

namespace Context

/-- The test `ptr && ptr.get() != this` on a locked weak pointer: the context the
pointer locks to, when there is one and it is another object than `this`. -/
def otherContext (heap : ContextHeap) (this : Context) (pointer : Option Nat) :
    Option Context :=
  (lockContext heap pointer).filter (fun context => decide (context.address ≠ this.address))

/-- Translation of `getExternalTables()` (lines 1054-1078).  The recursion into the
query context, or else the session context, is bounded by `fuel`; `none` means the
fuel ran out. -/
def getExternalTables (heap : ContextHeap) :
    Nat → Context → Option (Except ErrorCode Tables)
  | 0, this =>
    if this.is_global_context then some (Except.error ErrorCode.LOGICAL_ERROR) else none
  | fuel + 1, this =>
    if this.is_global_context then some (Except.error ErrorCode.LOGICAL_ERROR)
    else
      match (otherContext heap this this.query_context).orElse
          (fun _ => otherContext heap this this.session_context) with
      | some other =>
        match getExternalTables heap fuel other with
        | none => none
        | some (Except.error code) => some (Except.error code)
        | some (Except.ok buf) =>
          some (Except.ok
            (Tables.insertRange
              (this.external_tables_mapping.map (fun entry => (entry.1, entry.2.table))) buf))
      | none =>
        some (Except.ok
          (this.external_tables_mapping.map (fun entry => (entry.1, entry.2.table))))

/-- Translation of `addExternalTable(table_name, temporary_table)` (lines 1081-1090):
the context afterwards and the outcome. -/
def addExternalTable (this : Context) (table_name : String)
    (temporary_table : TemporaryTableHolder) : Context × Except ErrorCode Unit :=
  if this.is_global_context then (this, Except.error ErrorCode.LOGICAL_ERROR)
  else if (this.external_tables_mapping.lookup table_name).isSome then
    (this, Except.error ErrorCode.STREAM_ALREADY_EXISTS)
  else
    ({ this with
        external_tables_mapping := this.external_tables_mapping ++ [(table_name, temporary_table)] },
      Except.ok ())

/-- Translation of `removeExternalTable(table_name)` (lines 1093-1108): the context
afterwards and the holder returned, none for a null pointer. -/
def removeExternalTable (this : Context) (table_name : String) :
    Context × Except ErrorCode (Option TemporaryTableHolder) :=
  if this.is_global_context then (this, Except.error ErrorCode.LOGICAL_ERROR)
  else
    match this.external_tables_mapping.lookup table_name with
    | none => (this, Except.ok none)
    | some holder =>
      ({ this with
          external_tables_mapping :=
            this.external_tables_mapping.filter (fun entry => entry.1 != table_name) },
        Except.ok (some holder))

/-- The lambda `try_resolve` of `resolveStorageIDImpl` (lines 2994-3002): the global
table ID of the temporary table called like `storage_id` in `context`, if any. -/
def try_resolve (storage_id : StorageID) (context : Context) : Option StorageID :=
  (context.external_tables_mapping.lookup storage_id.table_name).map
    (fun holder => holder.global_table_id)

/-- Lines 3004-3018 of `resolveStorageIDImpl`: the temporary table is looked for in
the current context, then in the query context and then in the session context when
they are other objects than `this`. -/
def lookForExternalTable (heap : ContextHeap) (this : Context) (storage_id : StorageID) :
    Option StorageID :=
  match try_resolve storage_id this with
  | some resolved_id => some resolved_id
  | none =>
    match (otherContext heap this this.query_context).bind (try_resolve storage_id) with
    | some resolved_id => some resolved_id
    | none => (otherContext heap this this.session_context).bind (try_resolve storage_id)

/-- Translation of `resolveStorageIDImpl(storage_id, where, exception)` (lines
2961-3036).  `exception` tells whether the exception pointer is non-null; the result
is the returned ID and the error code emplaced through that pointer, if any. -/
def resolveStorageIDImpl (heap : ContextHeap) (this : Context) (storage_id : StorageID)
    (where_ : StorageNamespace) (exception : Bool) : StorageID × Option ErrorCode :=
  if storage_id.uuid ≠ UUIDHelpers.Nil then (storage_id, none)
  else if !storage_id.toBool then
    (storage_id, if exception then some ErrorCode.UNKNOWN_STREAM else none)
  else if storage_id.database_name ≠ "" then
    if where_.ResolveGlobal then (storage_id, none)
    else (StorageID.createEmpty, if exception then some ErrorCode.UNKNOWN_STREAM else none)
  else
    match (if where_.ResolveExternal && !this.is_global_context then
             lookForExternalTable heap this storage_id
           else none) with
    | some resolved_id => (resolved_id, none)
    | none =>
      if where_.ResolveCurrentDatabase then
        if this.current_database = "" then
          (StorageID.createEmpty, if exception then some ErrorCode.UNKNOWN_DATABASE else none)
        else ({ storage_id with database_name := this.current_database }, none)
      else (StorageID.createEmpty, if exception then some ErrorCode.UNKNOWN_STREAM else none)

end Context

/-- The fields of `ReadSettings` that `getReadSettings` assigns. -/
structure ReadSettings where
  local_fs_method : Nat
  remote_fs_method : Nat
  local_fs_prefetch : Bool
  remote_fs_prefetch : Bool
  load_marks_asynchronously : Bool
  remote_fs_read_max_backoff_ms : Nat
  remote_fs_read_backoff_max_tries : Nat
  enable_filesystem_cache : Bool
  read_from_filesystem_cache_if_exists_otherwise_bypass_cache : Bool
  enable_filesystem_cache_log : Bool
  enable_filesystem_cache_on_lower_level : Bool
  max_query_cache_size : Nat
  skip_download_if_exceeds_query_cache : Bool
  remote_read_min_bytes_for_seek : Nat
  local_fs_buffer_size : Nat
  direct_io_threshold : Nat
  mmap_threshold : Nat
  priority : Nat
  remote_throttler : Throttler
  http_max_tries : Nat
  http_retry_initial_backoff_ms : Nat
  http_retry_max_backoff_ms : Nat
  http_skip_not_found_url_for_globs : Bool
  mmap_cache : Option Nat
deriving DecidableEq, Repr

/-- The two calls `magic_enum::enum_cast` of `getReadSettings`, taken as parameters
since the enumerations `LocalFSReadMethod` and `RemoteFSReadMethod` are declared
outside the sources: the enumerator a name denotes, if any. -/
structure ReadMethodNames where
  local_fs : String → Option Nat
  remote_fs : String → Option Nat

namespace Context

/-- Translation of `getRemoteReadThrottler()` (lines 1978-1986): the shared throttler,
created on first use, and the context afterwards. -/
def getRemoteReadThrottler (this : Context) : Throttler × Context :=
  match this.remote_read_throttler with
  | some throttler => (throttler, this)
  | none =>
    ({ max_speed := this.settings.max_remote_read_network_bandwidth_for_server },
      { this with
        remote_read_throttler :=
          some { max_speed := this.settings.max_remote_read_network_bandwidth_for_server } })

/-- Translation of `getMMappedFileCache()` (lines 1869-1873). -/
def getMMappedFileCache (this : Context) : Option Nat :=
  this.mmap_cache

/-- Translation of `getReadSettings()` (lines 3317-3374): the settings built and the
context afterwards, or the error code thrown. -/
def getReadSettings (enum_cast : ReadMethodNames) (this : Context) :
    Except ErrorCode (ReadSettings × Context) :=
  match enum_cast.local_fs this.settings.local_filesystem_read_method with
  | none => Except.error ErrorCode.UNKNOWN_READ_METHOD
  | some local_method =>
    match enum_cast.remote_fs this.settings.remote_filesystem_read_method with
    | none => Except.error ErrorCode.UNKNOWN_READ_METHOD
    | some remote_method =>
      if this.settings.max_read_buffer_size = 0 then
        Except.error ErrorCode.INVALID_SETTING_VALUE
      else
        Except.ok
          ({ local_fs_method := local_method
             remote_fs_method := remote_method
             local_fs_prefetch := this.settings.local_filesystem_read_prefetch
             remote_fs_prefetch := this.settings.remote_filesystem_read_prefetch
             load_marks_asynchronously := this.settings.load_marks_asynchronously
             remote_fs_read_max_backoff_ms := this.settings.remote_fs_read_max_backoff_ms
             remote_fs_read_backoff_max_tries := this.settings.remote_fs_read_backoff_max_tries
             enable_filesystem_cache := this.settings.enable_filesystem_cache
             read_from_filesystem_cache_if_exists_otherwise_bypass_cache :=
               this.settings.read_from_filesystem_cache_if_exists_otherwise_bypass_cache
             enable_filesystem_cache_log := this.settings.enable_filesystem_cache_log
             enable_filesystem_cache_on_lower_level :=
               this.settings.enable_filesystem_cache_on_lower_level
             max_query_cache_size := this.settings.max_query_cache_size
             skip_download_if_exceeds_query_cache :=
               this.settings.skip_download_if_exceeds_query_cache
             remote_read_min_bytes_for_seek := this.settings.remote_read_min_bytes_for_seek
             local_fs_buffer_size := this.settings.max_read_buffer_size
             direct_io_threshold := Settings.min_bytes_to_use_direct_io this.settings
             mmap_threshold := Settings.min_bytes_to_use_mmap_io this.settings
             priority := this.settings.read_priority
             remote_throttler := (getRemoteReadThrottler this).1
             http_max_tries := this.settings.http_max_tries
             http_retry_initial_backoff_ms := this.settings.http_retry_initial_backoff_ms
             http_retry_max_backoff_ms := this.settings.http_retry_max_backoff_ms
             http_skip_not_found_url_for_globs := this.settings.http_skip_not_found_url_for_globs
             mmap_cache := getMMappedFileCache (getRemoteReadThrottler this).2 },
            (getRemoteReadThrottler this).2)

end Context

/-- The part of the file system `checkCanBeDropped` deals with: the paths that exist,
those among them whose removal throws, and the paths whose status cannot be
determined, so that `fs::exists` throws on them instead of answering. -/
structure FileSystem where
  files : List String
  undeletable : List String
  inaccessible : List String
deriving DecidableEq, Repr

/-- The file-system calls `checkCanBeDropped` makes. -/
inductive FileSystemCall where
  | fs_exists (path : String)
  | fs_remove (path : String)
deriving DecidableEq, Repr

/-- What leaves `checkCanBeDropped` as an exception: a `DB::Exception` with its error
code, or the `std::filesystem::filesystem_error` of a failed `fs::exists`. -/
inductive DropFailure where
  | Exception (code : ErrorCode)
  | filesystem_error
deriving DecidableEq, Repr

/-- The outcome of `checkCanBeDropped`: return or exception thrown, the file system
afterwards, and the file-system calls made. -/
structure DropCheck where
  outcome : Except DropFailure Unit
  file_system : FileSystem
  calls : List FileSystemCall

namespace Context

/-- Translation of `checkCanBeDropped(database, table, size, max_size_to_drop)` (lines
2621-2658).  The call `fs::exists` of line 2627 stands outside the `try` block, so its
exception leaves the function; a failed removal is caught and logged, after which the
function goes on to throw.  The database and table names only appear in the
message. -/
def checkCanBeDropped (this : Context) (file_system : FileSystem)
    (_database _table : String) (size max_size_to_drop : Nat) : DropCheck :=
  if max_size_to_drop = 0 ∨ size ≤ max_size_to_drop then
    { outcome := Except.ok (), file_system := file_system, calls := [] }
  else if this.flags_path ++ "force_drop_table" ∈ file_system.inaccessible then
    { outcome := Except.error DropFailure.filesystem_error
      file_system := file_system
      calls := [FileSystemCall.fs_exists (this.flags_path ++ "force_drop_table")] }
  else if this.flags_path ++ "force_drop_table" ∈ file_system.files then
    if this.flags_path ++ "force_drop_table" ∈ file_system.undeletable then
      { outcome :=
          Except.error
            (DropFailure.Exception ErrorCode.STREAM_SIZE_EXCEEDS_MAX_DROP_SIZE_LIMIT)
        file_system := file_system
        calls :=
          [FileSystemCall.fs_exists (this.flags_path ++ "force_drop_table"),
           FileSystemCall.fs_remove (this.flags_path ++ "force_drop_table")] }
    else
      { outcome := Except.ok ()
        file_system :=
          { file_system with
            files := file_system.files.filter
              (fun path => path != this.flags_path ++ "force_drop_table") }
        calls :=
          [FileSystemCall.fs_exists (this.flags_path ++ "force_drop_table"),
           FileSystemCall.fs_remove (this.flags_path ++ "force_drop_table")] }
  else
    { outcome :=
        Except.error (DropFailure.Exception ErrorCode.STREAM_SIZE_EXCEEDS_MAX_DROP_SIZE_LIMIT)
      file_system := file_system
      calls := [FileSystemCall.fs_exists (this.flags_path ++ "force_drop_table")] }

end Context

/-- The search order of temporary tables as the claim words it: the current context,
then the query context if it is a different context, then the session context if it
is a different context. -/
def temporaryTableSearchOrder (heap : ContextHeap) (this : Context) : List Context :=
  [this] ++ (Context.otherContext heap this this.query_context).toList ++
    (Context.otherContext heap this this.session_context).toList

/-- The global table ID of the temporary table called `table_name` in the first of
`contexts` that has one. -/
def firstTemporaryTable (table_name : String) (contexts : List Context) : Option StorageID :=
  contexts.findSome? (fun context =>
    (context.external_tables_mapping.lookup table_name).map
      (fun holder => holder.global_table_id))

/-- Settings naming two read methods, with a read buffer of 1 MiB. -/
def sampleSettings : Settings :=
  { local_filesystem_read_method := "pread"
    remote_filesystem_read_method := "threadpool"
    local_filesystem_read_prefetch := false
    remote_filesystem_read_prefetch := true
    load_marks_asynchronously := false
    remote_fs_read_max_backoff_ms := 10000
    remote_fs_read_backoff_max_tries := 5
    enable_filesystem_cache := true
    read_from_filesystem_cache_if_exists_otherwise_bypass_cache := false
    enable_filesystem_cache_log := false
    enable_filesystem_cache_on_lower_level := true
    max_query_cache_size := 0
    skip_download_if_exceeds_query_cache := true
    remote_read_min_bytes_for_seek := 4194304
    max_read_buffer_size := 1048576
    min_bytes_to_use_direct_io := 0
    min_bytes_to_use_mmap_io := 0
    read_priority := 0
    http_max_tries := 10
    http_retry_initial_backoff_ms := 100
    http_retry_max_backoff_ms := 10000
    http_skip_not_found_url_for_globs := true
    max_remote_read_network_bandwidth_for_server := 0 }

/-- The holder of the temporary table registered under `name` with storage `table`. -/
def sampleHolder (name : String) (table : Nat) : TemporaryTableHolder :=
  { global_table_id :=
      { database_name := "_temporary_and_external_tables", table_name := name, uuid := table }
    table := table }

/-- A context at `address` with the given temporary tables and parent pointers, in
database `default`, run by user `alice`. -/
def sampleContext (address : Nat) (is_global_context : Bool)
    (external_tables_mapping : List (String × TemporaryTableHolder))
    (query_context session_context : Option Nat) : Context :=
  { address := address
    is_global_context := is_global_context
    external_tables_mapping := external_tables_mapping
    query_context := query_context
    session_context := session_context
    current_database := "default"
    settings := sampleSettings
    flags_path := "/var/lib/proton/flags/"
    remote_read_throttler := none
    mmap_cache := none
    current_query_id := "q-17"
    insertion_table := { database_name := "db", table_name := "tbl", uuid := UUIDHelpers.Nil }
    user_name := "alice"
    node_identity := "node-1"
    query_status_poll_id := ""
    block_base_id := 0 }

/-- Three contexts: a local one at address 1 without temporary tables, its query
context at 2 holding `t` and `u`, and its session context at 3 holding `t` and `s`. -/
def sampleHeap : ContextHeap := fun address =>
  if address = 1 then some (sampleContext 1 false [] (some 2) (some 3))
  else if address = 2 then
    some (sampleContext 2 false [("t", sampleHolder "t" 20), ("u", sampleHolder "u" 21)]
      (some 2) (some 3))
  else if address = 3 then
    some (sampleContext 3 false [("t", sampleHolder "t" 30), ("s", sampleHolder "s" 31)]
      none (some 3))
  else none

/-- Read-method names as the settings documentation lists them, for evaluation. -/
def sampleReadMethodNames : ReadMethodNames :=
  { local_fs := fun name =>
      if name = "read" then some 0 else if name = "pread" then some 1
      else if name = "mmap" then some 2 else if name = "pread_threadpool" then some 3
      else none
    remote_fs := fun name =>
      if name = "read" then some 0 else if name = "threadpool" then some 1 else none }

/-- The sample context at address 1 with its read buffer size set to `size`. -/
def sampleReadContext (size : Nat) : Context :=
  { sampleContext 1 false [] none none with
    settings := { sampleSettings with max_read_buffer_size := size } }

/-! ## Query status poll ID (`Interpreters/Context.cpp`, lines 3421-3489) -/

/-- The separator `"!`$"` of line 3427, which is also what the regular expression of
line 3462 matches, as a list of characters. -/
def pollIdSeparator : List Char :=
  "!`$".toList

/-- The call `boost::algorithm::join(components, sep)`. -/
def joinComponents (sep : List Char) : List (List Char) → List Char
  | [] => []
  | [component] => component
  | component :: rest => component ++ sep ++ joinComponents sep rest

/-- The call `boost::algorithm::split_regex` for a pattern that matches the literal
text `sep`: the input is cut at every occurrence of `sep`, found from left to right
without overlap, and every piece is kept, empty ones too.  `skip` counts the
characters of a matched occurrence still to be passed over. -/
def splitLiteral (sep : List Char) : Nat → List Char → List (List Char)
  | _, [] => [[]]
  | skip + 1, _ :: rest => splitLiteral sep skip rest
  | 0, c :: rest =>
    if sep.isPrefixOf (c :: rest) then [] :: splitLiteral sep (sep.length - 1) rest
    else
      match splitLiteral sep 0 rest with
      | [] => [[c]]
      | piece :: pieces => (c :: piece) :: pieces

/-- The call `boost::algorithm::split(names, text, boost::is_any_of("."))`: the input
is cut at every delimiter character and every piece is kept. -/
def splitAnyOf (delimiter : Char → Bool) : List Char → List (List Char)
  | [] => [[]]
  | c :: rest =>
    if delimiter c then [] :: splitAnyOf delimiter rest
    else
      match splitAnyOf delimiter rest with
      | [] => [[c]]
      | piece :: pieces => (c :: piece) :: pieces

/-- The Base64 encoder and decoder of the Poco library, taken as parameters.  What an
encoder writes is Base64 text, whose characters are ASCII and so one byte each. -/
structure Base64Codec where
  encode : List Char → List Char
  decode : List Char → List Char
  encode_ascii : ∀ (text : List Char) (c : Char), c ∈ encode text → c.toNat < 128

namespace Context

/-- The six components of a poll ID (lines 3431-3436): query ID, full insertion table
name, user, node identity, block base ID and timestamp, the last two in decimal. -/
def pollIdComponents (this : Context) (block_base_id_ now : Nat) : List (List Char) :=
  [this.current_query_id.data, this.insertion_table.getFullNameNotQuoted.data,
   this.user_name.data, this.node_identity.data, (toString block_base_id_).data,
   (toString now).data]

/-- Translation of `setupQueryStatusPollId(block_base_id_)` (lines 3421-3447); `now` is
the reading of `MonotonicMicroseconds::now()`. -/
def setupQueryStatusPollId (codec : Base64Codec) (this : Context) (block_base_id_ now : Nat) :
    Context :=
  if this.query_status_poll_id ≠ "" then this
  else
    { this with
      query_status_poll_id :=
        String.mk (codec.encode
          (joinComponents pollIdSeparator (pollIdComponents this block_base_id_ now)))
      block_base_id := block_base_id_ }

/-- Translation of `parseQueryStatusPollId(poll_id)` (lines 3449-3489): the seven
strings returned, or the error code thrown.  The guard `poll_id.size() > 512` counts
the bytes of the poll ID; at most 512 decoded bytes are read. -/
def parseQueryStatusPollId (codec : Base64Codec) (this : Context) (poll_id : String) :
    Except ErrorCode (List String) :=
  if poll_id.utf8ByteSize > 512 then Except.error ErrorCode.BAD_ARGUMENTS
  else
    match splitLiteral pollIdSeparator 0 ((codec.decode poll_id.data).take 512) with
    | [component0, component1, component2, component3, component4, component5] =>
      if this.user_name.data ≠ component2 then Except.error ErrorCode.ACCESS_DENIED
      else
        match splitAnyOf (fun c => c = '.') component1 with
        | [name0, name1] =>
          Except.ok
            [String.mk component0, String.mk name0, String.mk name1, String.mk component2,
             String.mk component3, String.mk component4, String.mk component5]
        | _ => Except.error ErrorCode.INVALID_POLL_ID
    | _ => Except.error ErrorCode.BAD_ARGUMENTS

end Context

/-- The Base64 alphabet. -/
def base64Alphabet : List Char :=
  "ABCDEFGHIJKLMNOPQRSTUVWXYZabcdefghijklmnopqrstuvwxyz0123456789+/".toList

/-- The Base64 digit of a 6-bit value. -/
def base64Digit (value : Nat) : Char :=
  base64Alphabet.getD value 'A'

/-- Standard Base64 encoding with padding and without line breaks, as the encoder is
configured on line 3441. -/
def base64Encode : List Char → List Char
  | [] => []
  | [a] => [base64Digit (a.toNat / 4), base64Digit (a.toNat % 4 * 16), '=', '=']
  | [a, b] =>
    [base64Digit (a.toNat / 4), base64Digit (a.toNat % 4 * 16 + b.toNat / 16),
     base64Digit (b.toNat % 16 * 4), '=']
  | a :: b :: c :: rest =>
    base64Digit (a.toNat / 4) :: base64Digit (a.toNat % 4 * 16 + b.toNat / 16) ::
      base64Digit (b.toNat % 16 * 4 + c.toNat / 64) :: base64Digit (c.toNat % 64) ::
      base64Encode rest

/-- Standard Base64 decoding, four digits at a time, stopping at the padding. -/
def base64Decode : List Char → List Char
  | c1 :: c2 :: c3 :: c4 :: rest =>
    if c3 = '=' then
      [Char.ofNat (base64Alphabet.indexOf c1 * 4 + base64Alphabet.indexOf c2 / 16)]
    else if c4 = '=' then
      [Char.ofNat (base64Alphabet.indexOf c1 * 4 + base64Alphabet.indexOf c2 / 16),
       Char.ofNat (base64Alphabet.indexOf c2 % 16 * 16 + base64Alphabet.indexOf c3 / 4)]
    else
      Char.ofNat (base64Alphabet.indexOf c1 * 4 + base64Alphabet.indexOf c2 / 16) ::
        Char.ofNat (base64Alphabet.indexOf c2 % 16 * 16 + base64Alphabet.indexOf c3 / 4) ::
        Char.ofNat (base64Alphabet.indexOf c3 % 4 * 64 + base64Alphabet.indexOf c4) ::
        base64Decode rest
  | _ => []

/-- The standard Base64 codec, for evaluation.  Its encoder writes digits of the
alphabet and the padding sign only, all of them ASCII. -/
def standardBase64 : Base64Codec :=
  { encode := base64Encode
    decode := base64Decode
    encode_ascii := by
      have hall : ∀ c ∈ base64Alphabet, c.toNat < 128 := by decide
      have hdigit : ∀ n, (base64Digit n).toNat < 128 := by
        intro n
        unfold base64Digit
        rw [List.getD_eq_getElem?_getD]
        cases h : base64Alphabet[n]? with
        | none => decide
        | some c => exact hall c (List.getElem?_mem h)
      intro text
      induction text using base64Encode.induct with
      | case1 =>
        intro c h
        simp [base64Encode] at h
      | case2 a =>
        intro c h
        simp only [base64Encode, List.mem_cons, List.mem_singleton, List.not_mem_nil,
          or_false] at h
        rcases h with rfl | rfl | rfl | rfl
        · exact hdigit _
        · exact hdigit _
        · decide
        · decide
      | case3 a b =>
        intro c h
        simp only [base64Encode, List.mem_cons, List.mem_singleton, List.not_mem_nil,
          or_false] at h
        rcases h with rfl | rfl | rfl | rfl
        · exact hdigit _
        · exact hdigit _
        · exact hdigit _
        · decide
      | case4 a b c rest ih =>
        intro ch h
        simp only [base64Encode, List.mem_cons] at h
        rcases h with rfl | rfl | rfl | rfl | h
        · exact hdigit _
        · exact hdigit _
        · exact hdigit _
        · exact hdigit _
        · exact ih ch h }

namespace Streaming

/-- A transform over three shards that works on the middle one, which holds two
groups; the shards of the two other workers are `first` and `third`. -/
def threeShardTransform (first third : AggregatedDataVariants) :
    UserDefinedEmitStrategyAggregatingTransform :=
  { sampleTransform true true with
    many_data := { variants := [first, { groups := [([1], [10, 5]), ([2], [7])] }, third] }
    current_variant := 1
    max_threads := 3 }

/-! ## Properties of the aggregating transform -/

namespace UserDefinedEmitStrategyAggregatingTransform

/-! ### Helper lemmas -/

theorem currentVariants_storeVariants (t : UserDefinedEmitStrategyAggregatingTransform)
    (v w : AggregatedDataVariants) (hv : t.currentVariants = some v) :
    (t.storeVariants w).currentVariants = some w := by
  unfold currentVariants at hv
  have hlt : t.current_variant < t.many_data.variants.length := by
    by_contra hge
    rw [List.getElem?_eq_none (Nat.le_of_not_lt hge)] at hv
    cases hv
  simp [currentVariants, storeVariants, hlt]

theorem emitBlock_many_data (ext : Collaborators)
    (t : UserDefinedEmitStrategyAggregatingTransform) (block : Block)
    (chunk_ctx : ChunkContextPtr) :
    (emitBlock ext t block chunk_ctx).many_data = t.many_data ∧
      (emitBlock ext t block chunk_ctx).current_variant = t.current_variant ∧
      (emitBlock ext t block chunk_ctx).version = t.version := by
  unfold emitBlock setCurrentChunk
  split <;> simp

theorem emitBlock_calls (ext : Collaborators)
    (t : UserDefinedEmitStrategyAggregatingTransform) (block : Block)
    (chunk_ctx : ChunkContextPtr) :
    (emitBlock ext t block chunk_ctx).calls =
      t.calls ++ (if ext.operatorBool block then [Call.setCurrentChunk] else []) := by
  unfold emitBlock setCurrentChunk
  split <;> simp

theorem emitBlock_current_chunk (ext : Collaborators)
    (t : UserDefinedEmitStrategyAggregatingTransform) (block : Block)
    (chunk_ctx : ChunkContextPtr) :
    (emitBlock ext t block chunk_ctx).current_chunk =
      if ext.operatorBool block then some (ext.convertToChunk block, chunk_ctx)
      else t.current_chunk := by
  unfold emitBlock setCurrentChunk
  split <;> simp

/-- In final mode, when the final conversion of the shard returns exactly the block
`b`, lines 44-59 leave `b`, or `b` with its version column, in the local `block`. -/
theorem convertVariants_final (ext : Collaborators)
    (t : UserDefinedEmitStrategyAggregatingTransform) (v va : AggregatedDataVariants)
    (b : Block) (hfinal : t.params.final = true)
    (hconv : t.params.aggregator.convertToBlocksFinal v ConvertAction.STREAMING_EMIT 1 =
      ([b], va)) :
    convertVariants ext t v =
      if t.params.emit_version then
        some (emitVersion ext ((t.storeVariants va).logCall Call.convertToBlocksFinal) b)
      else some (b, (t.storeVariants va).logCall Call.convertToBlocksFinal) := by
  simp [convertVariants, hfinal, hconv]

/-- In intermediate mode, when the intermediate conversion of the shard returns
exactly the block `b`, lines 44-59 leave `b` in the local `block`. -/
theorem convertVariants_intermediate (ext : Collaborators)
    (t : UserDefinedEmitStrategyAggregatingTransform) (v va : AggregatedDataVariants)
    (b : Block) (hfinal : t.params.final = false)
    (hconv : t.params.aggregator.convertToBlocksIntermediate v ConvertAction.STREAMING_EMIT 1 =
      ([b], va)) :
    convertVariants ext t v =
      some (b, (t.storeVariants va).logCall Call.convertToBlocksIntermediate) := by
  simp [convertVariants, hfinal, hconv]

/-- A conversion result of length one is a single block paired with the shard the
conversion left. -/
theorem single_block_result (r : List Block × AggregatedDataVariants)
    (h : r.1.length = 1) : ∃ b, r = ([b], r.2) := by
  obtain ⟨l, va⟩ := r
  obtain ⟨b, hb⟩ := List.length_eq_one.mp h
  exact ⟨b, by simp_all⟩

/-- With an aggregator that answers every conversion with exactly one block, lines
44-59 always produce a block, and the shard they leave at `current_variant` is the
one the selected conversion returned. -/
theorem convertVariants_total (ext : Collaborators)
    (t : UserDefinedEmitStrategyAggregatingTransform) (v : AggregatedDataVariants)
    (hv : t.currentVariants = some v) (hsingle : t.params.aggregator.SingleBlock) :
    ∃ b tc, convertVariants ext t v = some (b, tc) ∧
      tc.currentVariants = some
        (if t.params.final then
          (t.params.aggregator.convertToBlocksFinal v ConvertAction.STREAMING_EMIT 1).2
        else
          (t.params.aggregator.convertToBlocksIntermediate v ConvertAction.STREAMING_EMIT 1).2) := by
  cases hfinal : t.params.final
  · obtain ⟨b, hb⟩ := single_block_result _ (hsingle v).2
    refine ⟨b, _, convertVariants_intermediate ext t v _ b hfinal hb, ?_⟩
    have := currentVariants_storeVariants t v
      (t.params.aggregator.convertToBlocksIntermediate v ConvertAction.STREAMING_EMIT 1).2 hv
    simpa [logCall, currentVariants] using this
  · obtain ⟨b, hb⟩ := single_block_result _ (hsingle v).1
    have hstore := currentVariants_storeVariants t v
      (t.params.aggregator.convertToBlocksFinal v ConvertAction.STREAMING_EMIT 1).2 hv
    rw [convertVariants_final ext t v _ b hfinal hb]
    cases hev : t.params.emit_version
    · simp only [Bool.false_eq_true, if_false]
      exact ⟨_, _, rfl, by simpa [logCall, currentVariants] using hstore⟩
    · simp only [if_true]
      exact ⟨_, _, rfl, by simpa [emitVersion, logCall, currentVariants] using hstore⟩

/-- The calls lines 44-59 add to the log are conversions and `emitVersion`, never
`setCurrentChunk`. -/
theorem convertVariants_calls (ext : Collaborators)
    (t tc : UserDefinedEmitStrategyAggregatingTransform) (v : AggregatedDataVariants)
    (b : Block) (h : convertVariants ext t v = some (b, tc)) :
    ∃ pre, tc.calls = t.calls ++ pre ∧ Call.setCurrentChunk ∉ pre := by
  unfold convertVariants at h
  split at h
  · split at h
    · split at h
      · simp only [Option.some.injEq, emitVersion, Prod.mk.injEq] at h
        rw [← h.2]
        exact ⟨[Call.convertToBlocksFinal, Call.emitVersion],
          by simp [logCall, storeVariants], by decide⟩
      · simp only [Option.some.injEq, Prod.mk.injEq] at h
        rw [← h.2]
        exact ⟨[Call.convertToBlocksFinal], by simp [logCall, storeVariants], by decide⟩
    · cases h
  · split at h
    · simp only [Option.some.injEq, Prod.mk.injEq] at h
      rw [← h.2]
      exact ⟨[Call.convertToBlocksIntermediate], by simp [logCall, storeVariants], by decide⟩
    · cases h

/-- After lines 61-62 a chunk was emitted exactly when the block is present, and the
emitted chunk is the converted block tagged with the chunk context. -/
theorem emittedChunk_emitBlock (ext : Collaborators)
    (t tc : UserDefinedEmitStrategyAggregatingTransform) (b : Block)
    (chunk_ctx : ChunkContextPtr) (pre : List Call) (hcalls : tc.calls = t.calls ++ pre)
    (hpre : Call.setCurrentChunk ∉ pre) :
    emittedChunk t (emitBlock ext tc b chunk_ctx) =
      if ext.operatorBool b then some (ext.convertToChunk b, chunk_ctx) else none := by
  unfold emittedChunk
  rw [emitBlock_calls, emitBlock_current_chunk, hcalls, List.append_assoc,
    List.drop_left]
  cases ext.operatorBool b <;> simp [hpre]

/-- A step that changes nothing emitted nothing. -/
theorem emittedChunk_self (t : UserDefinedEmitStrategyAggregatingTransform) :
    emittedChunk t t = none := by
  simp [emittedChunk]

/-- With `current_variant` out of range `finalize` has no defined result. -/
theorem finalize_of_no_shard (ext : Collaborators)
    (t : UserDefinedEmitStrategyAggregatingTransform) (chunk_ctx : ChunkContextPtr)
    (hv : t.currentVariants = none) : finalize ext t chunk_ctx = none := by
  simp [finalize, hv]

/-- On an empty shard `finalize` takes the early return of line 42. -/
theorem finalize_of_empty_shard (ext : Collaborators)
    (t : UserDefinedEmitStrategyAggregatingTransform) (chunk_ctx : ChunkContextPtr)
    (v : AggregatedDataVariants) (hv : t.currentVariants = some v)
    (hempty : v.empty = true) : finalize ext t chunk_ctx = some t := by
  simp [finalize, hv, hempty]

/-- On a non-empty shard whose conversion fails its assertion `finalize` has no
defined result. -/
theorem finalize_of_failed_conversion (ext : Collaborators)
    (t : UserDefinedEmitStrategyAggregatingTransform) (chunk_ctx : ChunkContextPtr)
    (v : AggregatedDataVariants) (hv : t.currentVariants = some v)
    (hne : v.empty = false) (hconv : convertVariants ext t v = none) :
    finalize ext t chunk_ctx = none := by
  simp [finalize, hv, hne, hconv]

/-- On a non-empty shard `finalize` is lines 44-59 followed by lines 61-62. -/
theorem finalize_of_conversion (ext : Collaborators)
    (t : UserDefinedEmitStrategyAggregatingTransform) (chunk_ctx : ChunkContextPtr)
    (v : AggregatedDataVariants) (b : Block)
    (tc : UserDefinedEmitStrategyAggregatingTransform) (hv : t.currentVariants = some v)
    (hne : v.empty = false) (hconv : convertVariants ext t v = some (b, tc)) :
    finalize ext t chunk_ctx = some (emitBlock ext tc b chunk_ctx) := by
  simp [finalize, hv, hne, hconv]

/-! ### Claims -/

/-- C1: when the transform's own shard `many_data->variants[current_variant]` is
empty, `finalize` returns with the transform exactly as it was: the call log is
unchanged, so no aggregator conversion was made, and the current chunk is
unchanged, so no chunk, not even an empty one, was set. -/
theorem finalize_empty_shard_unchanged (ext : Collaborators)
    (t : UserDefinedEmitStrategyAggregatingTransform) (chunk_ctx : ChunkContextPtr)
    (v : AggregatedDataVariants) (hv : t.currentVariants = some v)
    (hempty : v.empty = true) :
    finalize ext t chunk_ctx = some t := by
  simp [finalize, hv, hempty]

/-- Witness for C1: the freshly constructed transform, whose only shard is empty. -/
theorem finalize_empty_shard_unchanged_witness :
    finalize specCollaborators idleTransform (some 7) = some idleTransform :=
  finalize_empty_shard_unchanged specCollaborators idleTransform (some 7)
    { groups := [] } rfl rfl

/-- C2: with an aggregator whose conversions drain the shard (and answer with one
block, as asserted), `finalize` on a non-empty shard returns, and afterwards the
shard `many_data->variants[current_variant]` is empty, in either result mode. -/
theorem finalize_leaves_shard_empty (ext : Collaborators)
    (t : UserDefinedEmitStrategyAggregatingTransform) (chunk_ctx : ChunkContextPtr)
    (v : AggregatedDataVariants) (hv : t.currentVariants = some v)
    (hne : v.empty = false) (hsingle : t.params.aggregator.SingleBlock)
    (hdrain : t.params.aggregator.Drains) :
    ∃ t_after v_after, finalize ext t chunk_ctx = some t_after ∧
      t_after.currentVariants = some v_after ∧ v_after.empty = true := by
  obtain ⟨b, tc, hconv, hshard⟩ := convertVariants_total ext t v hv hsingle
  refine ⟨emitBlock ext tc b chunk_ctx,
    (if t.params.final then
      (t.params.aggregator.convertToBlocksFinal v ConvertAction.STREAMING_EMIT 1).2
    else
      (t.params.aggregator.convertToBlocksIntermediate v ConvertAction.STREAMING_EMIT 1).2),
    by simp [finalize, hv, hne, hconv], ?_, ?_⟩
  · have h := emitBlock_many_data ext tc b chunk_ctx
    unfold currentVariants at hshard ⊢
    rw [h.1, h.2.1]
    exact hshard
  · cases t.params.final
    · exact (hdrain v).2
    · exact (hdrain v).1

/-- Witness for C2: the two-group sample shard in final mode with versioning. -/
theorem finalize_leaves_shard_empty_witness :
    ∃ t_after v_after,
      finalize specCollaborators (sampleTransform true true) none = some t_after ∧
      t_after.currentVariants = some v_after ∧ v_after.empty = true :=
  finalize_leaves_shard_empty specCollaborators (sampleTransform true true) none
    { groups := [([1], [10, 5]), ([2], [7])] } rfl rfl
    (fun _ => ⟨rfl, rfl⟩) (fun _ => ⟨rfl, rfl⟩)

/-- C3, as stated, fails: with `params->final` false and a non-empty shard, `finalize`
calls the intermediate conversion and never the final one. -/
theorem finalize_intermediate_mode_counterexample :
    (sampleTransform false true).currentVariants.map AggregatedDataVariants.empty = some false ∧
    (finalize specCollaborators (sampleTransform false true) none).map (fun t => t.calls) =
      some [Call.convertToBlocksIntermediate, Call.setCurrentChunk] := by
  decide

/-- C3, amended: on every trigger with a non-empty shard and `params->final` true,
`finalize` returns having converted the shard with the final-result conversion, and
only with it: the first call it adds to the log is `convertToBlocksFinal`, no
`convertToBlocksIntermediate` follows, and the shard is left as the final conversion
returned it.  This holds for every value of the other parameters. -/
theorem finalize_final_mode_uses_final_conversion (ext : Collaborators)
    (t : UserDefinedEmitStrategyAggregatingTransform) (chunk_ctx : ChunkContextPtr)
    (v : AggregatedDataVariants) (hv : t.currentVariants = some v)
    (hne : v.empty = false) (hfinal : t.params.final = true)
    (hsingle : t.params.aggregator.SingleBlock) :
    ∃ t_after rest, finalize ext t chunk_ctx = some t_after ∧
      t_after.calls = t.calls ++ Call.convertToBlocksFinal :: rest ∧
      Call.convertToBlocksIntermediate ∉ rest ∧
      t_after.currentVariants = some
        (t.params.aggregator.convertToBlocksFinal v ConvertAction.STREAMING_EMIT 1).2 := by
  obtain ⟨b, hb⟩ := single_block_result _ (hsingle v).1
  have hconv := convertVariants_final ext t v _ b hfinal hb
  have hstore := currentVariants_storeVariants t v
    (t.params.aggregator.convertToBlocksFinal v ConvertAction.STREAMING_EMIT 1).2 hv
  cases hev : t.params.emit_version
  · simp only [hev, Bool.false_eq_true, if_false] at hconv
    refine ⟨_, if ext.operatorBool b then [Call.setCurrentChunk] else [],
      by simp only [finalize, hv, hne, hconv, Bool.false_eq_true, if_false]; rfl, ?_, ?_, ?_⟩
    · rw [emitBlock_calls]; simp [logCall, storeVariants]
    · split <;> decide
    · have h := emitBlock_many_data ext
        ((t.storeVariants (t.params.aggregator.convertToBlocksFinal v
          ConvertAction.STREAMING_EMIT 1).2).logCall Call.convertToBlocksFinal) b chunk_ctx
      unfold currentVariants at hstore ⊢
      rw [h.1, h.2.1]
      simpa [logCall] using hstore
  · simp only [hev, if_true] at hconv
    refine ⟨_, Call.emitVersion ::
        (if ext.operatorBool (ext.emitVersion b t.version).1 then [Call.setCurrentChunk] else []),
      by simp only [finalize, hv, hne, hconv, Bool.false_eq_true, if_false]; rfl, ?_, ?_, ?_⟩
    · rw [emitBlock_calls]; simp [emitVersion, logCall, storeVariants]
    · split <;> decide
    · have h := emitBlock_many_data ext
        (emitVersion ext ((t.storeVariants (t.params.aggregator.convertToBlocksFinal v
          ConvertAction.STREAMING_EMIT 1).2).logCall Call.convertToBlocksFinal) b).2
        (emitVersion ext ((t.storeVariants (t.params.aggregator.convertToBlocksFinal v
          ConvertAction.STREAMING_EMIT 1).2).logCall Call.convertToBlocksFinal) b).1 chunk_ctx
      unfold currentVariants at hstore ⊢
      rw [h.1, h.2.1]
      simpa [emitVersion, logCall] using hstore

/-- Witness for the amended C3: the sample shard in final mode without versioning. -/
theorem finalize_final_mode_uses_final_conversion_witness :
    ∃ t_after rest, finalize specCollaborators (sampleTransform true false) (some 1) = some t_after ∧
      t_after.calls = (sampleTransform true false).calls ++ Call.convertToBlocksFinal :: rest ∧
      Call.convertToBlocksIntermediate ∉ rest ∧
      t_after.currentVariants = some
        ((sampleTransform true false).params.aggregator.convertToBlocksFinal
          { groups := [([1], [10, 5]), ([2], [7])] } ConvertAction.STREAMING_EMIT 1).2 :=
  finalize_final_mode_uses_final_conversion specCollaborators (sampleTransform true false)
    (some 1) { groups := [([1], [10, 5]), ([2], [7])] } rfl rfl rfl (fun _ => ⟨rfl, rfl⟩)

/-- C4: in `finalize` with a non-empty shard in final mode, where the final
conversion returns the block `b`, `emitVersion` is among the calls made exactly when
`params->emit_version` is set; the block handed on to lines 61-62 is `b` with its
version column when a version is requested and exactly `b` when it is not, and the
version counter moves only in the first case. -/
theorem finalize_version_iff_requested (ext : Collaborators)
    (t : UserDefinedEmitStrategyAggregatingTransform) (chunk_ctx : ChunkContextPtr)
    (v va : AggregatedDataVariants) (b : Block) (hv : t.currentVariants = some v)
    (hne : v.empty = false) (hfinal : t.params.final = true)
    (hconv : t.params.aggregator.convertToBlocksFinal v ConvertAction.STREAMING_EMIT 1 =
      ([b], va)) :
    ∃ tc, convertVariants ext t v =
        some (if t.params.emit_version then (ext.emitVersion b t.version).1 else b, tc) ∧
      finalize ext t chunk_ctx = some (emitBlock ext tc
        (if t.params.emit_version then (ext.emitVersion b t.version).1 else b) chunk_ctx) ∧
      (Call.emitVersion ∈ (emitBlock ext tc
          (if t.params.emit_version then (ext.emitVersion b t.version).1 else b)
          chunk_ctx).calls.drop t.calls.length ↔ t.params.emit_version = true) ∧
      tc.version =
        (if t.params.emit_version then (ext.emitVersion b t.version).2 else t.version) := by
  have hc := convertVariants_final ext t v va b hfinal hconv
  cases hev : t.params.emit_version
  · simp only [hev, Bool.false_eq_true, if_false] at hc ⊢
    refine ⟨_, hc, by simp only [finalize, hv, hne, hc, Bool.false_eq_true, if_false], ?_, ?_⟩
    · rw [emitBlock_calls]
      cases ext.operatorBool b <;> simp [logCall, storeVariants]
    · simp [logCall, storeVariants]
  · simp only [hev, if_true] at hc ⊢
    refine ⟨_, hc, by simp only [finalize, hv, hne, hc, Bool.false_eq_true, if_false]; rfl,
      ?_, ?_⟩
    · rw [emitBlock_calls]
      simp [emitVersion, logCall, storeVariants]
    · simp [emitVersion, logCall, storeVariants]

/-- Witness for C4: the sample shard in final mode with a version requested. -/
theorem finalize_version_iff_requested_witness :
    ∃ tc, convertVariants specCollaborators (sampleTransform true true)
          { groups := [([1], [10, 5]), ([2], [7])] } =
        some (if (sampleTransform true true).params.emit_version then
            (specCollaborators.emitVersion { data := [[1, 2], [15, 7]] }
              (sampleTransform true true).version).1
          else { data := [[1, 2], [15, 7]] }, tc) ∧
      finalize specCollaborators (sampleTransform true true) (some 3) =
        some (emitBlock specCollaborators tc
          (if (sampleTransform true true).params.emit_version then
            (specCollaborators.emitVersion { data := [[1, 2], [15, 7]] }
              (sampleTransform true true).version).1
          else { data := [[1, 2], [15, 7]] }) (some 3)) ∧
      (Call.emitVersion ∈ (emitBlock specCollaborators tc
          (if (sampleTransform true true).params.emit_version then
            (specCollaborators.emitVersion { data := [[1, 2], [15, 7]] }
              (sampleTransform true true).version).1
          else { data := [[1, 2], [15, 7]] })
          (some 3)).calls.drop (sampleTransform true true).calls.length ↔
        (sampleTransform true true).params.emit_version = true) ∧
      tc.version =
        (if (sampleTransform true true).params.emit_version then
          (specCollaborators.emitVersion { data := [[1, 2], [15, 7]] }
            (sampleTransform true true).version).2
        else (sampleTransform true true).version) :=
  finalize_version_iff_requested specCollaborators (sampleTransform true true) (some 3)
    { groups := [([1], [10, 5]), ([2], [7])] } { groups := [] } { data := [[1, 2], [15, 7]] }
    rfl rfl rfl rfl

/-- C5, as stated, fails: the six-argument constructor builds a transform over four
shards that works on shard 2 with four threads. -/
theorem ctorFull_many_shards_counterexample :
    (ctorFull { data := [] } (sampleTransform true true).params (ManyAggregatedData.ofSize 4)
        2 4 4).map (fun t => (t.many_data.variants.length, t.current_variant, t.max_threads)) =
      some (4, 2, 4) := by
  decide

/-- C5, amended: every transform built by the two-argument constructor (which
succeeds whenever the grouping mode is `USER_DEFINED`) has exactly one shard,
`current_variant` 0 and `max_threads` 1; the six-argument constructor keeps the
shards, the index and the thread count it is given. -/
theorem ctor_single_shard (header : Block) (params_ : AggregatingTransformParams)
    (hgroup : params_.group_by = GroupBy.USER_DEFINED) :
    (∃ t, ctor header params_ = some t ∧ t.many_data.variants.length = 1 ∧
      t.current_variant = 0 ∧ t.max_threads = 1) ∧
    ∀ (many_data_ : ManyAggregatedData) (current_variant_ max_threads_ merge_threads_ : Nat),
      ∃ t, ctorFull header params_ many_data_ current_variant_ max_threads_ merge_threads_ =
          some t ∧
        t.many_data = many_data_ ∧ t.current_variant = current_variant_ ∧
        t.max_threads = max_threads_ := by
  constructor
  · rw [ctor, ctorFull, if_pos hgroup]
    exact ⟨_, rfl, by simp [ManyAggregatedData.ofSize], rfl, rfl⟩
  · intro many_data_ current_variant_ max_threads_ merge_threads_
    rw [ctorFull, if_pos hgroup]
    exact ⟨_, rfl, rfl, rfl, rfl⟩

/-- Witness for the amended C5: construction with the sample parameters. -/
theorem ctor_single_shard_witness :
    (∃ t, ctor { data := [] } (sampleTransform true true).params = some t ∧
      t.many_data.variants.length = 1 ∧ t.current_variant = 0 ∧ t.max_threads = 1) ∧
    ∀ (many_data_ : ManyAggregatedData) (current_variant_ max_threads_ merge_threads_ : Nat),
      ∃ t, ctorFull { data := [] } (sampleTransform true true).params many_data_
            current_variant_ max_threads_ merge_threads_ = some t ∧
        t.many_data = many_data_ ∧ t.current_variant = current_variant_ ∧
        t.max_threads = max_threads_ :=
  ctor_single_shard { data := [] } (sampleTransform true true).params rfl

/-- C6: `finalize` uses the chunk context only as a tag.  For one transform state and
any two chunk contexts `c1`, `c2`: both runs return or neither does, with the same
shards, version counter and calls; both emit a chunk or neither does, with the same
rows; and the chunk emitted under `ci` carries exactly `ci`. -/
theorem finalize_chunk_ctx_is_tag (ext : Collaborators)
    (t : UserDefinedEmitStrategyAggregatingTransform) (c1 c2 : ChunkContextPtr) :
    (finalize ext t c1).map (fun a => (a.many_data, a.version, a.calls)) =
        (finalize ext t c2).map (fun a => (a.many_data, a.version, a.calls)) ∧
      ((finalize ext t c1).bind (emittedChunk t)).map Prod.fst =
        ((finalize ext t c2).bind (emittedChunk t)).map Prod.fst ∧
      ((finalize ext t c1).bind (emittedChunk t)).map Prod.snd =
        ((finalize ext t c1).bind (emittedChunk t)).map (fun _ => c1) ∧
      ((finalize ext t c2).bind (emittedChunk t)).map Prod.snd =
        ((finalize ext t c2).bind (emittedChunk t)).map (fun _ => c2) := by
  cases hv : t.currentVariants with
  | none => simp [finalize_of_no_shard ext t _ hv]
  | some v =>
    cases hempty : v.empty
    · cases hconv : convertVariants ext t v with
      | none => simp [finalize_of_failed_conversion ext t _ v hv hempty hconv]
      | some p =>
        obtain ⟨b, tc⟩ := p
        obtain ⟨pre, hcalls, hpre⟩ := convertVariants_calls ext t tc v b hconv
        have e1 := emittedChunk_emitBlock ext t tc b c1 pre hcalls hpre
        have e2 := emittedChunk_emitBlock ext t tc b c2 pre hcalls hpre
        have m1 := emitBlock_many_data ext tc b c1
        have m2 := emitBlock_many_data ext tc b c2
        have k1 := emitBlock_calls ext tc b c1
        have k2 := emitBlock_calls ext tc b c2
        rw [finalize_of_conversion ext t c1 v b tc hv hempty hconv,
          finalize_of_conversion ext t c2 v b tc hv hempty hconv]
        simp only [Option.map_some', Option.some_bind, e1, e2,
          m1.1, m1.2.2, m2.1, m2.2.2, k1, k2, true_and]
        cases ext.operatorBool b <;> simp
    · simp [finalize_of_empty_shard ext t _ v hv hempty, emittedChunk_self]

/-- Evaluation of C6 on the sample shard: the runs under contexts 1 and 2 emit the
same rows, tagged 1 and 2. -/
theorem finalize_chunk_ctx_is_tag_sample :
    ((finalize specCollaborators (sampleTransform true false) (some 1)).bind
        (emittedChunk (sampleTransform true false)) =
      some ({ columns := [[1, 2], [15, 7]], num_rows := 2 }, some 1)) ∧
    ((finalize specCollaborators (sampleTransform true false) (some 2)).bind
        (emittedChunk (sampleTransform true false)) =
      some ({ columns := [[1, 2], [15, 7]], num_rows := 2 }, some 2)) := by
  decide

/-- With the modelled helpers, a `finalize` in final mode with a version requested, on
a non-empty shard whose final conversion returns the block `b`, emits `b` with a
version column that repeats the current counter on every row, and advances the
counter by one. -/
theorem finalize_versioned_step (t : UserDefinedEmitStrategyAggregatingTransform)
    (chunk_ctx : ChunkContextPtr) (v va : AggregatedDataVariants) (b : Block)
    (hfinal : t.params.final = true) (hev : t.params.emit_version = true)
    (hv : t.currentVariants = some v) (hne : v.empty = false)
    (hconv : t.params.aggregator.convertToBlocksFinal v ConvertAction.STREAMING_EMIT 1 =
      ([b], va)) :
    ∃ t_after chunk, finalize specCollaborators t chunk_ctx = some t_after ∧
      emittedChunk t t_after = some (chunk, chunk_ctx) ∧
      versionColumn chunk = some (List.replicate b.rows t.version) ∧
      t_after.version = t.version + 1 ∧ t_after.params = t.params ∧
      t_after.currentVariants = some va := by
  have hc := convertVariants_final specCollaborators t v va b hfinal hconv
  simp only [hev, if_true] at hc
  have hfin := finalize_of_conversion specCollaborators t chunk_ctx v
    (emitVersion specCollaborators
      ((t.storeVariants va).logCall Call.convertToBlocksFinal) b).1
    (emitVersion specCollaborators
      ((t.storeVariants va).logCall Call.convertToBlocksFinal) b).2 hv hne hc
  have hstore := currentVariants_storeVariants t v va hv
  refine ⟨_, { columns := b.data ++ [List.replicate b.rows t.version]
               num_rows := Block.rows { data := b.data ++ [List.replicate b.rows t.version] } },
    hfin, ?_, ?_, ?_, ?_, ?_⟩
  · simp [emittedChunk, emitBlock, setCurrentChunk, emitVersion, logCall, storeVariants,
      specCollaborators]
  · simp [versionColumn]
  · simp [emitBlock, setCurrentChunk, emitVersion, logCall, storeVariants, specCollaborators]
  · simp [emitBlock, setCurrentChunk, emitVersion, logCall, storeVariants, specCollaborators]
  · have h := emitBlock_many_data specCollaborators
      (emitVersion specCollaborators
        ((t.storeVariants va).logCall Call.convertToBlocksFinal) b).2
      (emitVersion specCollaborators
        ((t.storeVariants va).logCall Call.convertToBlocksFinal) b).1 chunk_ctx
    unfold currentVariants at hstore ⊢
    rw [h.1, h.2.1]
    simpa [emitVersion, logCall] using hstore

/-- C12: with versioning enabled in final mode and the modelled `emitVersion`, two
successive `finalize` calls on non-empty shards (the second after the shard has
accumulated the next group) each emit a chunk; every row of one chunk carries the
same version, and the version of the second chunk is strictly greater than that of
the first. -/
theorem finalize_versions_strictly_increase
    (t : UserDefinedEmitStrategyAggregatingTransform) (c1 c2 : ChunkContextPtr)
    (v1 va1 v2 va2 : AggregatedDataVariants) (b1 b2 : Block)
    (hfinal : t.params.final = true) (hev : t.params.emit_version = true)
    (hv1 : t.currentVariants = some v1) (hne1 : v1.empty = false)
    (hconv1 : t.params.aggregator.convertToBlocksFinal v1 ConvertAction.STREAMING_EMIT 1 =
      ([b1], va1))
    (hne2 : v2.empty = false)
    (hconv2 : t.params.aggregator.convertToBlocksFinal v2 ConvertAction.STREAMING_EMIT 1 =
      ([b2], va2)) :
    ∃ t1 t2 chunk1 chunk2 g1 g2,
      finalize specCollaborators t c1 = some t1 ∧
      emittedChunk t t1 = some (chunk1, c1) ∧
      finalize specCollaborators (t1.storeVariants v2) c2 = some t2 ∧
      emittedChunk (t1.storeVariants v2) t2 = some (chunk2, c2) ∧
      versionColumn chunk1 = some (List.replicate b1.rows g1) ∧
      versionColumn chunk2 = some (List.replicate b2.rows g2) ∧ g1 < g2 := by
  obtain ⟨t1, chunk1, hf1, he1, hcol1, hver1, hpar1, hshard1⟩ :=
    finalize_versioned_step t c1 v1 va1 b1 hfinal hev hv1 hne1 hconv1
  have hparams : (t1.storeVariants v2).params = t.params := by
    simpa [storeVariants] using hpar1
  have hversion : (t1.storeVariants v2).version = t.version + 1 := by
    simpa [storeVariants] using hver1
  obtain ⟨t2, chunk2, hf2, he2, hcol2, _, _, _⟩ :=
    finalize_versioned_step (t1.storeVariants v2) c2 v2 va2 b2
      (by rw [hparams]; exact hfinal) (by rw [hparams]; exact hev)
      (currentVariants_storeVariants t1 va1 v2 hshard1) hne2
      (by rw [hparams]; exact hconv2)
  rw [hversion] at hcol2
  exact ⟨t1, t2, chunk1, chunk2, t.version, t.version + 1, hf1, he1, hf2, he2, hcol1, hcol2,
    by omega⟩

/-- Witness for C12: the sample shard emitted twice, the second time after the same
two groups have been accumulated again. -/
theorem finalize_versions_strictly_increase_witness :
    ∃ t1 t2 chunk1 chunk2 g1 g2,
      finalize specCollaborators (sampleTransform true true) (some 1) = some t1 ∧
      emittedChunk (sampleTransform true true) t1 = some (chunk1, some 1) ∧
      finalize specCollaborators
        (t1.storeVariants { groups := [([1], [10, 5]), ([2], [7])] }) (some 2) = some t2 ∧
      emittedChunk (t1.storeVariants { groups := [([1], [10, 5]), ([2], [7])] }) t2 =
        some (chunk2, some 2) ∧
      versionColumn chunk1 = some (List.replicate (Block.rows { data := [[1, 2], [15, 7]] }) g1) ∧
      versionColumn chunk2 = some (List.replicate (Block.rows { data := [[1, 2], [15, 7]] }) g2) ∧
      g1 < g2 :=
  finalize_versions_strictly_increase (sampleTransform true true) (some 1) (some 2)
    { groups := [([1], [10, 5]), ([2], [7])] } { groups := [] }
    { groups := [([1], [10, 5]), ([2], [7])] } { groups := [] }
    { data := [[1, 2], [15, 7]] } { data := [[1, 2], [15, 7]] } rfl rfl rfl rfl rfl rfl rfl

/-- Writing the shard at `current_variant` back leaves every other shard as it was. -/
theorem storeVariants_other (t : UserDefinedEmitStrategyAggregatingTransform)
    (w : AggregatedDataVariants) (i : Nat) (hi : i ≠ t.current_variant) :
    (t.storeVariants w).many_data.variants[i]? = t.many_data.variants[i]? := by
  simp [storeVariants, List.getElem?_set_ne (Ne.symm hi)]

/-- Lines 44-59 leave every shard other than the one at `current_variant` as it
was. -/
theorem convertVariants_other (ext : Collaborators)
    (t tc : UserDefinedEmitStrategyAggregatingTransform) (v : AggregatedDataVariants)
    (b : Block) (h : convertVariants ext t v = some (b, tc)) (i : Nat)
    (hi : i ≠ t.current_variant) :
    tc.many_data.variants[i]? = t.many_data.variants[i]? := by
  unfold convertVariants at h
  split at h
  · split at h
    · split at h
      · simp only [Option.some.injEq, emitVersion, Prod.mk.injEq] at h
        rw [← h.2]
        exact storeVariants_other t _ i hi
      · simp only [Option.some.injEq, Prod.mk.injEq] at h
        rw [← h.2]
        exact storeVariants_other t _ i hi
    · cases h
  · split at h
    · simp only [Option.some.injEq, Prod.mk.injEq] at h
      rw [← h.2]
      exact storeVariants_other t _ i hi
    · cases h

/-- The block, the version counter, the call log, the current chunk and the shard at
`current_variant` that lines 44-59 produce do not depend on the other shards. -/
theorem convertVariants_congr (ext : Collaborators)
    (t : UserDefinedEmitStrategyAggregatingTransform) (others : ManyAggregatedData)
    (v : AggregatedDataVariants) :
    (convertVariants ext { t with many_data := others } v).map
        (fun p => (p.1, p.2.version, p.2.calls, p.2.current_chunk)) =
      (convertVariants ext t v).map
        (fun p => (p.1, p.2.version, p.2.calls, p.2.current_chunk)) := by
  unfold convertVariants
  cases hfinal : t.params.final
  · simp only [Bool.false_eq_true, if_false]
    split <;> simp [logCall, storeVariants]
  · simp only [if_true]
    split
    · cases hev : t.params.emit_version <;> simp [emitVersion, logCall, storeVariants]
    · simp

/-- C21: `finalize` reads and converts only the shard at `current_variant`.  Every
other shard `many_data->variants[i]` is the same after `finalize` as before; and
when the other shards are replaced by anything (`others` agreeing with `many_data`
at `current_variant`), the run returns or not alike, with the same current chunk,
version counter and calls, and emits the same chunk or none alike. -/
theorem finalize_ignores_other_variants (ext : Collaborators)
    (t : UserDefinedEmitStrategyAggregatingTransform) (chunk_ctx : ChunkContextPtr)
    (others : ManyAggregatedData)
    (hsame : others.variants[t.current_variant]? = t.many_data.variants[t.current_variant]?) :
    (∀ t_after i, finalize ext t chunk_ctx = some t_after → i ≠ t.current_variant →
        t_after.many_data.variants[i]? = t.many_data.variants[i]?) ∧
      (finalize ext { t with many_data := others } chunk_ctx).map
          (fun a => (a.current_chunk, a.version, a.calls)) =
        (finalize ext t chunk_ctx).map (fun a => (a.current_chunk, a.version, a.calls)) ∧
      (finalize ext { t with many_data := others } chunk_ctx).bind
          (emittedChunk { t with many_data := others }) =
        (finalize ext t chunk_ctx).bind (emittedChunk t) := by
  have hu : currentVariants { t with many_data := others } = t.currentVariants := by
    simpa [currentVariants] using hsame
  cases hv : t.currentVariants with
  | none =>
    rw [hv] at hu
    rw [finalize_of_no_shard ext t chunk_ctx hv, finalize_of_no_shard ext _ chunk_ctx hu]
    simp
  | some v =>
    rw [hv] at hu
    cases hempty : v.empty
    · have hcongr := convertVariants_congr ext t others v
      cases hconv : convertVariants ext t v with
      | none =>
        rw [hconv] at hcongr
        have hconv_u : convertVariants ext { t with many_data := others } v = none := by
          simpa using hcongr
        rw [finalize_of_failed_conversion ext t chunk_ctx v hv hempty hconv,
          finalize_of_failed_conversion ext _ chunk_ctx v hu hempty hconv_u]
        simp
      | some p =>
        obtain ⟨b, tc⟩ := p
        rw [hconv] at hcongr
        cases hconv_u : convertVariants ext { t with many_data := others } v with
        | none =>
          rw [hconv_u] at hcongr
          simp at hcongr
        | some q =>
          obtain ⟨b_u, tc_u⟩ := q
          rw [hconv_u] at hcongr
          simp only [Option.map_some', Option.some.injEq, Prod.mk.injEq] at hcongr
          obtain ⟨hb, hversion, hcalls, hchunk⟩ := hcongr
          subst hb
          obtain ⟨pre, hpre_calls, hpre⟩ := convertVariants_calls ext t tc v b_u hconv
          have hpre_u : tc_u.calls =
              UserDefinedEmitStrategyAggregatingTransform.calls
                { t with many_data := others } ++ pre := by
            rw [hcalls, hpre_calls]
          rw [finalize_of_conversion ext t chunk_ctx v b_u tc hv hempty hconv,
            finalize_of_conversion ext _ chunk_ctx v b_u tc_u hu hempty hconv_u]
          refine ⟨?_, ?_, ?_⟩
          · intro t_after i hafter hi
            simp only [Option.some.injEq] at hafter
            rw [← hafter, (emitBlock_many_data ext tc b_u chunk_ctx).1]
            exact convertVariants_other ext t tc v b_u hconv i hi
          · simp only [Option.map_some', emitBlock_current_chunk, emitBlock_calls,
              (emitBlock_many_data ext tc b_u chunk_ctx).2.2,
              (emitBlock_many_data ext tc_u b_u chunk_ctx).2.2, hversion, hcalls, hchunk]
          · simp only [Option.some_bind]
            rw [emittedChunk_emitBlock ext t tc b_u chunk_ctx pre hpre_calls hpre,
              emittedChunk_emitBlock ext _ tc_u b_u chunk_ctx pre hpre_u hpre]
    · rw [finalize_of_empty_shard ext t chunk_ctx v hv hempty,
        finalize_of_empty_shard ext _ chunk_ctx v hu hempty]
      refine ⟨?_, rfl, ?_⟩
      · intro t_after i hafter _
        simp only [Option.some.injEq] at hafter
        rw [← hafter]
      · simp [emittedChunk_self]

/-- Witness for C21: the middle shard of three is converted; the first and the third
shard stay, and emptying them changes neither the chunk emitted nor anything else
that `finalize` reports. -/
theorem finalize_ignores_other_variants_witness :
    (∀ t_after i,
        finalize specCollaborators
            (threeShardTransform { groups := [([3], [1])] } { groups := [([4], [2])] })
            (some 5) = some t_after →
          i ≠ (threeShardTransform { groups := [([3], [1])] }
            { groups := [([4], [2])] }).current_variant →
        t_after.many_data.variants[i]? =
          (threeShardTransform { groups := [([3], [1])] }
            { groups := [([4], [2])] }).many_data.variants[i]?) ∧
      (finalize specCollaborators
            { threeShardTransform { groups := [([3], [1])] } { groups := [([4], [2])] } with
              many_data := (threeShardTransform { groups := [] } { groups := [] }).many_data }
            (some 5)).map (fun a => (a.current_chunk, a.version, a.calls)) =
        (finalize specCollaborators
            (threeShardTransform { groups := [([3], [1])] } { groups := [([4], [2])] })
            (some 5)).map (fun a => (a.current_chunk, a.version, a.calls)) ∧
      (finalize specCollaborators
            { threeShardTransform { groups := [([3], [1])] } { groups := [([4], [2])] } with
              many_data := (threeShardTransform { groups := [] } { groups := [] }).many_data }
            (some 5)).bind
          (emittedChunk
            { threeShardTransform { groups := [([3], [1])] } { groups := [([4], [2])] } with
              many_data := (threeShardTransform { groups := [] } { groups := [] }).many_data }) =
        (finalize specCollaborators
            (threeShardTransform { groups := [([3], [1])] } { groups := [([4], [2])] })
            (some 5)).bind
          (emittedChunk
            (threeShardTransform { groups := [([3], [1])] } { groups := [([4], [2])] })) :=
  finalize_ignores_other_variants specCollaborators
    (threeShardTransform { groups := [([3], [1])] } { groups := [([4], [2])] }) (some 5)
    (threeShardTransform { groups := [] } { groups := [] }).many_data rfl

/-- Evaluation for C21: the run of the witness emits the two groups of the middle
shard and leaves the three shards as first, drained, third. -/
theorem finalize_three_shards_sample :
    (finalize specCollaborators
        (threeShardTransform { groups := [([3], [1])] } { groups := [([4], [2])] })
        (some 5)).map (fun a => (a.many_data, a.current_chunk)) =
      some ({ variants := [{ groups := [([3], [1])] }, { groups := [] },
              { groups := [([4], [2])] }] },
        some ({ columns := [[1, 2], [15, 7], [0, 0]], num_rows := 2 }, some 5)) := by
  decide

end UserDefinedEmitStrategyAggregatingTransform

/-! ## Properties of the join stream description -/

/-! ### Helper lemmas -/

/-- Locating at least one name yields at least one offset. -/
theorem positionsByName_cons_ne_nil (columns : List String) (name : String)
    (names : List String) (positions : List Nat)
    (h : positionsByName columns (name :: names) = some positions) : positions ≠ [] := by
  unfold positionsByName at h
  split at h
  · simp only [Option.some.injEq] at h
    rw [← h]
    exact List.cons_ne_nil _ _
  · cases h

/-- Step 1 keeps the rule that a version position comes with a non-empty key. -/
theorem locateKeyAndVersion_keeps_rule (d d1 : JoinStreamDescription)
    (hrule : d.hasVersionColumn = true → d.hasPrimaryKey = true)
    (h : locateKeyAndVersion d = Except.ok d1) :
    d1.hasVersionColumn = true → d1.hasPrimaryKey = true := by
  unfold locateKeyAndVersion at h
  split at h
  · split at h
    · cases h
    · cases h
    · rename_i key keys version_name hkey hversion
      split at h
      · rename_i positions version_position hpos hvpos
        simp only [Except.ok.injEq] at h
        intro _
        rw [← h]
        have hne := positionsByName_cons_ne_nil _ _ _ _ hpos
        cases positions with
        | nil => exact absurd rfl hne
        | cons p ps => rfl
      · cases h
  · simp only [Except.ok.injEq] at h
    rw [← h]
    exact hrule

/-- Step 2 touches neither the key positions nor the version position. -/
theorem locateDelta_keeps_key_and_version (delta_column_name : String)
    (d d1 : JoinStreamDescription) (h : locateDelta delta_column_name d = Except.ok d1) :
    d1.primary_key_column_positions = d.primary_key_column_positions ∧
      d1.version_column_position = d.version_column_position := by
  unfold locateDelta at h
  split at h
  · split at h
    · simp only [Except.ok.injEq] at h
      rw [← h]
      exact ⟨rfl, rfl⟩
    · cases h
  · simp only [Except.ok.injEq] at h
    rw [← h]
    exact ⟨rfl, rfl⟩
  · simp only [Except.ok.injEq] at h
    rw [← h]
    exact ⟨rfl, rfl⟩

/-- The whole derivation keeps the rule that a version position comes with a
non-empty key. -/
theorem calculateColumnPositions_keeps_rule (d d3 : JoinStreamDescription)
    (strictness : JoinStrictness) (delta_column_name : String)
    (hrule : d.hasVersionColumn = true → d.hasPrimaryKey = true)
    (h : d.calculateColumnPositions strictness delta_column_name = Except.ok d3) :
    d3.hasVersionColumn = true → d3.hasPrimaryKey = true := by
  unfold JoinStreamDescription.calculateColumnPositions at h
  split at h
  · cases h
  · rename_i d1 h1
    split at h
    · cases h
    · rename_i d2 h2
      have r1 := locateKeyAndVersion_keeps_rule d d1 hrule h1
      have k2 := locateDelta_keeps_key_and_version delta_column_name d1 d2 h2
      have r2 : d2.hasVersionColumn = true → d2.hasPrimaryKey = true := by
        unfold JoinStreamDescription.hasVersionColumn JoinStreamDescription.hasPrimaryKey
        rw [k2.1, k2.2]
        exact r1
      split at h
      · simp only [Except.ok.injEq] at h
        rw [← h]
        exact r2
      · simp only [Except.ok.injEq] at h
        rw [← h]
        exact r2

/-! ### Claims -/

/-- C7: every description produced by the constructor followed by a successful
`calculateColumnPositions` satisfies: if `hasVersionColumn()` is true then
`hasPrimaryKey()` is true. -/
theorem version_column_implies_primary_key
    (table_with_columns_ : TableWithColumnNamesAndTypes) (input_header_ : Block)
    (data_stream_semantic_ : DataStreamSemanticEx) (keep_versions_ : Nat)
    (strictness : JoinStrictness) (delta_column_name : String) (d : JoinStreamDescription)
    (hbuild : (JoinStreamDescription.ctor table_with_columns_ input_header_
      data_stream_semantic_ keep_versions_).calculateColumnPositions strictness
      delta_column_name = Except.ok d)
    (hversion : d.hasVersionColumn = true) : d.hasPrimaryKey = true :=
  calculateColumnPositions_keeps_rule _ d strictness delta_column_name
    (fun h => by simp [JoinStreamDescription.ctor, JoinStreamDescription.hasVersionColumn] at h)
    hbuild hversion

/-- Witness for C7: the derivation over `versionedSchema` succeeds with a version
position, and the resulting description has a primary key. -/
theorem version_column_implies_primary_key_witness :
    (JoinStreamDescription.ctor versionedSchema { data := [] }
        DataStreamSemanticEx.VersionedKV 1).calculateColumnPositions JoinStrictness.Any
        "_tp_delta" = Except.ok versionedDescription ∧
      versionedDescription.hasVersionColumn = true ∧
      versionedDescription.hasPrimaryKey = true :=
  ⟨rfl, rfl,
    version_column_implies_primary_key versionedSchema { data := [] }
      DataStreamSemanticEx.VersionedKV 1 JoinStrictness.Any "_tp_delta" versionedDescription
      rfl rfl⟩

/-- C8: `hasPrimaryKey()` is true exactly when the primary-key position sequence is
present and non-empty; with the sequence absent, and with it present but empty, it
is false. -/
theorem hasPrimaryKey_iff_present_nonempty (d : JoinStreamDescription) :
    (d.hasPrimaryKey = true ↔
      ∃ positions, d.primary_key_column_positions = some positions ∧ positions ≠ []) ∧
    ({ d with primary_key_column_positions := none } : JoinStreamDescription).hasPrimaryKey =
      false ∧
    ({ d with primary_key_column_positions := some [] } : JoinStreamDescription).hasPrimaryKey =
      false := by
  refine ⟨?_, rfl, rfl⟩
  unfold JoinStreamDescription.hasPrimaryKey
  cases d.primary_key_column_positions with
  | none => simp
  | some positions => cases positions <;> simp

/-- The move constructor carries over every member its initialiser list names, and
with them the answers of `hasPrimaryKey()` and `hasVersionColumn()`. -/
theorem moveCtor_keeps_named_members (d : JoinStreamDescription) :
    (JoinStreamDescription.moveCtor d).data_stream_semantic = d.data_stream_semantic ∧
      (JoinStreamDescription.moveCtor d).keep_versions = d.keep_versions ∧
      (JoinStreamDescription.moveCtor d).primary_key_column_positions =
        d.primary_key_column_positions ∧
      (JoinStreamDescription.moveCtor d).version_column_position = d.version_column_position ∧
      (JoinStreamDescription.moveCtor d).hasPrimaryKey = d.hasPrimaryKey ∧
      (JoinStreamDescription.moveCtor d).hasVersionColumn = d.hasVersionColumn :=
  ⟨rfl, rfl, rfl, rfl, rfl, rfl⟩

/-- C22: the move constructor does not carry `delta_column_position` over.  The
changelog description has its delta column at offset 1 and answers `hasDeltaColumn()`
with true; the description move-constructed from it has no delta position and
answers false. -/
theorem moveCtor_drops_delta_column :
    changelogDescription.delta_column_position = some 1 ∧
      changelogDescription.hasDeltaColumn = true ∧
      (JoinStreamDescription.moveCtor changelogDescription).delta_column_position = none ∧
      (JoinStreamDescription.moveCtor changelogDescription).hasDeltaColumn = false := by
  decide

/-! ## Properties of the retraction resolver -/

/-- C9: for a side with key offset 0, version offset 1, no delta column and
`keep_versions = 1`, joined on the key: the row `(1, 1, A)` is inserted; the row
`(1, 2, B)` then resolves to an `Upsert` that retracts `(1, 1, A)` and leaves
`(1, 2, B)` retained; and any later row `(1, v, C)` whose version `v` is not above 2,
an equal version included, is dropped with no action and the retained rows
unchanged. -/
theorem resolve_versioned_upsert_and_stale (d : JoinStreamDescription)
    (hkey : d.primary_key_column_positions = some [0])
    (hversion : d.version_column_position = some 1)
    (hdelta : d.delta_column_position = none) (hkeep : d.keep_versions = 1) (A B : Int) :
    resolve d [0] [] [1, 1, A] =
        Except.ok { action := some Action.Insert, retained := [[1, 1, A]], lookups := 1 } ∧
      resolve d [0] [[1, 1, A]] [1, 2, B] =
        Except.ok
          { action := some (Action.Upsert [1, 1, A]), retained := [[1, 2, B]], lookups := 1 } ∧
      ∀ v C : Int, v ≤ 2 →
        resolve d [0] [[1, 2, B]] [1, v, C] =
          Except.ok { action := none, retained := [[1, 2, B]], lookups := 1 } := by
  refine ⟨?_, ?_, ?_⟩
  · simp [resolve, explicitRetraction, hdelta, hversion, retain, evict, sameKey,
      JoinStreamDescription.hasPrimaryKey, keyPositions, hkey, hkeep, project]
  · simp [resolve, explicitRetraction, hdelta, hversion, retain, evict, sameKey,
      JoinStreamDescription.hasPrimaryKey, keyPositions, hkey, hkeep, project, upsertMatch,
      versionGreater]
  · intro v C hv
    have hnot : ¬ (2 < v) := by omega
    simp [resolve, explicitRetraction, hdelta, hversion, keyPositions, hkey, project,
      upsertMatch, versionGreater, hnot]

/-- Witness for C9: the description derived from `versionedSchema`, with `A = 10` and
`B = 20`. -/
theorem resolve_versioned_upsert_and_stale_witness :
    resolve versionedDescription [0] [] [1, 1, 10] =
        Except.ok { action := some Action.Insert, retained := [[1, 1, 10]], lookups := 1 } ∧
      resolve versionedDescription [0] [[1, 1, 10]] [1, 2, 20] =
        Except.ok
          { action := some (Action.Upsert [1, 1, 10]), retained := [[1, 2, 20]], lookups := 1 } ∧
      ∀ v C : Int, v ≤ 2 →
        resolve versionedDescription [0] [[1, 2, 20]] [1, v, C] =
          Except.ok { action := none, retained := [[1, 2, 20]], lookups := 1 } :=
  resolve_versioned_upsert_and_stale versionedDescription rfl rfl rfl rfl 10 20

/-- C10: for a side with a delta column and a row whose delta is `-1`: when no
retained row matches, the resolver raises `ConsistencyViolation`; when one does, it
returns a `Retract` whose locator is a retained row with the join key of the
incoming row, and that row leaves the retained state. -/
theorem resolve_explicit_retraction (d : JoinStreamDescription)
    (join_key_positions : List Nat) (retained : List Row) (row : Row) (delta_position : Nat)
    (hdelta : d.delta_column_position = some delta_position)
    (hrow : row[delta_position]? = some (-1)) :
    ((∀ prior ∈ retained,
        retractionMatch d join_key_positions delta_position row prior = false) →
      resolve d join_key_positions retained row =
        Except.error ResolveError.ConsistencyViolation) ∧
    ((∃ prior ∈ retained,
        retractionMatch d join_key_positions delta_position row prior = true) →
      ∃ located, located ∈ retained ∧
        project join_key_positions located = project join_key_positions row ∧
        retractionMatch d join_key_positions delta_position row located = true ∧
        resolve d join_key_positions retained row =
          Except.ok
            { action := some (Action.Retract located)
              retained := retained.erase located
              lookups := 1 }) := by
  have hexp : explicitRetraction d row = some delta_position := by
    simp [explicitRetraction, hdelta, hrow]
  constructor
  · intro hnone
    have hfind :
        retained.find? (retractionMatch d join_key_positions delta_position row) = none := by
      rw [List.find?_eq_none]
      intro prior hmem
      simp [hnone prior hmem]
    simp [resolve, hexp, hfind]
  · rintro ⟨prior, hmem, hmatch⟩
    cases hfind : retained.find? (retractionMatch d join_key_positions delta_position row) with
    | none =>
      rw [List.find?_eq_none] at hfind
      exact absurd hmatch (hfind prior hmem)
    | some located =>
      have hlocated := List.find?_some hfind
      refine ⟨located, List.mem_of_find?_eq_some hfind, ?_, hlocated, ?_⟩
      · unfold retractionMatch at hlocated
        simp only [Bool.and_eq_true, decide_eq_true_eq] at hlocated
        exact hlocated.1
      · simp [resolve, hexp, hfind]

/-- Witness for C10: on the changelog side, the retraction `(1, -1, 5)` fails against
an empty retained state and retracts `(1, +1, 5)` when that row is retained. -/
theorem resolve_explicit_retraction_witness :
    resolve changelogDescription [0] [] [1, -1, 5] =
        Except.error ResolveError.ConsistencyViolation ∧
      ∃ located, located ∈ [[1, 1, 5]] ∧
        project [0] located = project [0] [1, -1, 5] ∧
        retractionMatch changelogDescription [0] 1 [1, -1, 5] located = true ∧
        resolve changelogDescription [0] [[1, 1, 5]] [1, -1, 5] =
          Except.ok
            { action := some (Action.Retract located)
              retained := [[1, 1, 5]].erase located
              lookups := 1 } :=
  ⟨(resolve_explicit_retraction changelogDescription [0] [] [1, -1, 5] 1 rfl
      (by decide)).1
      (by simp),
    (resolve_explicit_retraction changelogDescription [0] [[1, 1, 5]] [1, -1, 5] 1 rfl
      (by decide)).2
      ⟨[1, 1, 5], by simp, by decide⟩⟩

/-- C11: for a side whose description has no version column and no delta column, in
particular one with no primary key either, such as every `Append` side, every row
resolves to `Insert`, and the resolver makes no prior-row lookup: the lookup count
is zero and the retained rows are passed on as they are, whatever they are, with the
new row in front. -/
theorem resolve_plain_insert (d : JoinStreamDescription) (join_key_positions : List Nat)
    (retained : List Row) (row : Row)
    (hversion : d.hasVersionColumn = false) (hdelta : d.hasDeltaColumn = false) :
    resolve d join_key_positions retained row =
      Except.ok { action := some Action.Insert, retained := row :: retained, lookups := 0 } := by
  have hv : d.version_column_position = none := by
    simpa [JoinStreamDescription.hasVersionColumn] using hversion
  have hd : d.delta_column_position = none := by
    simpa [JoinStreamDescription.hasDeltaColumn] using hdelta
  simp [resolve, explicitRetraction, hv, hd]

/-- Witness for C11: the description derived for an `Append` input has none of the
three positions, and a row of it is inserted without a lookup although an equal row
is already retained and `keep_versions` is 1: both rows are retained. -/
theorem resolve_plain_insert_witness :
    (JoinStreamDescription.ctor appendSchema { data := [] }
        DataStreamSemanticEx.Append 1).calculateColumnPositions JoinStrictness.Any
        "_tp_delta" = Except.ok appendDescription ∧
      appendDescription.hasPrimaryKey = false ∧
      resolve appendDescription [0] [[1, 7]] [1, 7] =
        Except.ok
          { action := some Action.Insert, retained := [[1, 7], [1, 7]], lookups := 0 } :=
  ⟨rfl, rfl, resolve_plain_insert appendDescription [0] [[1, 7]] [1, 7] rfl rfl⟩

end Streaming

/-! ## Properties of the external stream settings -/

/-- A name found in the first of two appended lists is found there in the whole. -/
theorem lookup_append_of_lookup (first second : List (String × SettingValue))
    (name : String) (value : SettingValue) (h : first.lookup name = some value) :
    (first ++ second).lookup name = some value := by
  induction first with
  | nil => simp at h
  | cons entry rest ih =>
    obtain ⟨key, entry_value⟩ := entry
    simp only [List.cons_append, List.lookup_cons] at h ⊢
    cases hkey : name == key
    · rw [hkey] at h
      exact ih h
    · rw [hkey] at h
      exact h

/-- C19: a default-constructed `ExternalStreamSettings` has `type`, `brokers`, `topic`,
`username`, `password`, `log_files`, `log_dir`, `timestamp_regex`, `data_format` and
`data_schema` empty, `security_protocol` equal to `plaintext`, `hash_bytes` 1024,
`row_delimiter` a line feed and `max_row_length` 4096, whatever format-factory
settings are appended to the list. -/
theorem ExternalStreamSettings_defaults (FORMAT_FACTORY_SETTINGS : List SettingDeclaration) :
    (ExternalStreamSettings.ctor FORMAT_FACTORY_SETTINGS).get "type" =
        some (SettingValue.string "") ∧
      (ExternalStreamSettings.ctor FORMAT_FACTORY_SETTINGS).get "brokers" =
        some (SettingValue.string "") ∧
      (ExternalStreamSettings.ctor FORMAT_FACTORY_SETTINGS).get "topic" =
        some (SettingValue.string "") ∧
      (ExternalStreamSettings.ctor FORMAT_FACTORY_SETTINGS).get "security_protocol" =
        some (SettingValue.string "plaintext") ∧
      (ExternalStreamSettings.ctor FORMAT_FACTORY_SETTINGS).get "username" =
        some (SettingValue.string "") ∧
      (ExternalStreamSettings.ctor FORMAT_FACTORY_SETTINGS).get "password" =
        some (SettingValue.string "") ∧
      (ExternalStreamSettings.ctor FORMAT_FACTORY_SETTINGS).get "log_files" =
        some (SettingValue.string "") ∧
      (ExternalStreamSettings.ctor FORMAT_FACTORY_SETTINGS).get "log_dir" =
        some (SettingValue.string "") ∧
      (ExternalStreamSettings.ctor FORMAT_FACTORY_SETTINGS).get "timestamp_regex" =
        some (SettingValue.string "") ∧
      (ExternalStreamSettings.ctor FORMAT_FACTORY_SETTINGS).get "hash_bytes" =
        some (SettingValue.uint64 1024) ∧
      (ExternalStreamSettings.ctor FORMAT_FACTORY_SETTINGS).get "data_format" =
        some (SettingValue.string "") ∧
      (ExternalStreamSettings.ctor FORMAT_FACTORY_SETTINGS).get "row_delimiter" =
        some (SettingValue.string "\n") ∧
      (ExternalStreamSettings.ctor FORMAT_FACTORY_SETTINGS).get "max_row_length" =
        some (SettingValue.uint64 4096) ∧
      (ExternalStreamSettings.ctor FORMAT_FACTORY_SETTINGS).get "data_schema" =
        some (SettingValue.string "") := by
  simp only [ExternalStreamSettings.ctor, ExternalStreamSettings.get, List.map_append]
  refine ⟨?_, ?_, ?_, ?_, ?_, ?_, ?_, ?_, ?_, ?_, ?_, ?_, ?_, ?_⟩ <;>
    exact lookup_append_of_lookup _ _ _ _ (by decide)


/-! ## Properties of the sub-second clock -/

/-- C13, as stated, fails: at scale 19 the reading of 999999999 ns is multiplied by
`10^10`; the product exceeds the signed 64-bit `fractional` and is stored wrapped
around, as a negative number. -/
theorem nowSubsecond_scale_19_counterexample :
    nowSubsecond exactIntExp10 (some (0, 999999999)) 19 =
        some (Except.ok ({ whole := 0, fractional := -8446744083709551616 }, 19)) ∧
      (999999999 : Int) * 10 ^ (19 - 9) ≠ -8446744083709551616 ∧
      (2 : Int) ^ 63 ≤ 999999999 * 10 ^ (19 - 9) :=
  ⟨rfl, by decide, by decide⟩

/-- C13, amended: for every scale up to 18, every clock reading `(tv_sec, tv_nsec)`
with `0 ≤ tv_nsec < 10^9` and an `intExp10` that is the exact power of ten up to
`10^9`, `nowSubsecond` returns, with whole part `tv_sec` and fractional part
`tv_nsec / 10^(9-scale)` (truncating) when `scale < 9`, `tv_nsec * 10^(scale-9)` when
`scale > 9`, and `tv_nsec` when `scale = 9`. -/
theorem nowSubsecond_in_range (intExp10 : Int → Nat) (tv_sec tv_nsec : Int) (scale : Nat)
    (hscale : scale ≤ 18) (hlow : 0 ≤ tv_nsec) (hhigh : tv_nsec < 10 ^ 9)
    (hexp : ∀ x : Nat, x ≤ 9 → intExp10 (x : Int) = 10 ^ x) :
    nowSubsecond intExp10 (some (tv_sec, tv_nsec)) scale =
      some (Except.ok
        ({ whole := tv_sec
           fractional :=
             if scale < 9 then tv_nsec / 10 ^ (9 - scale)
             else if 9 < scale then tv_nsec * 10 ^ (scale - 9)
             else tv_nsec }, scale)) := by
  have h1 := hexp 1 (by norm_num)
  have h2 := hexp 2 (by norm_num)
  have h3 := hexp 3 (by norm_num)
  have h4 := hexp 4 (by norm_num)
  have h5 := hexp 5 (by norm_num)
  have h6 := hexp 6 (by norm_num)
  have h7 := hexp 7 (by norm_num)
  have h8 := hexp 8 (by norm_num)
  have h9 := hexp 9 (by norm_num)
  norm_num at h1 h2 h3 h4 h5 h6 h7 h8 h9 hhigh
  interval_cases scale <;>
    norm_num [nowSubsecond, wrapInt32, wrapInt64, h1, h2, h3, h4, h5, h6, h7, h8, h9] <;>
    omega

/-- Witness for the amended C13: the reading of 123456789 ns gives 123456 at scale 6
and 123456789000 at scale 12. -/
theorem nowSubsecond_in_range_witness :
    nowSubsecond exactIntExp10 (some (5, 123456789)) 6 =
        some (Except.ok ({ whole := 5, fractional := 123456 }, 6)) ∧
      nowSubsecond exactIntExp10 (some (5, 123456789)) 12 =
        some (Except.ok ({ whole := 5, fractional := 123456789000 }, 12)) :=
  ⟨nowSubsecond_in_range exactIntExp10 5 123456789 6 (by decide) (by decide) (by decide)
      (fun x _ => by simp [exactIntExp10]),
    nowSubsecond_in_range exactIntExp10 5 123456789 12 (by decide) (by decide) (by decide)
      (fun x _ => by simp [exactIntExp10])⟩

/-! ## Properties of the server context -/

namespace Context

/-- The search of lines 3004-3018 finds what the first context of the search order
has. -/
theorem lookForExternalTable_eq_first (heap : ContextHeap) (this : Context)
    (storage_id : StorageID) :
    lookForExternalTable heap this storage_id =
      firstTemporaryTable storage_id.table_name (temporaryTableSearchOrder heap this) := by
  unfold lookForExternalTable firstTemporaryTable temporaryTableSearchOrder try_resolve
  cases hthis : (this.external_tables_mapping.lookup storage_id.table_name) with
  | some holder => simp [hthis]
  | none =>
    cases hq : otherContext heap this this.query_context with
    | none =>
      cases hs : otherContext heap this this.session_context with
      | none => simp [hthis]
      | some session_context_ptr =>
        cases hst : session_context_ptr.external_tables_mapping.lookup storage_id.table_name <;>
          simp [hthis, hst]
    | some query_context_ptr =>
      cases hqt : query_context_ptr.external_tables_mapping.lookup storage_id.table_name with
      | some holder => simp [hthis, hqt]
      | none =>
        cases hs : otherContext heap this this.session_context with
        | none => simp [hthis, hqt]
        | some session_context_ptr =>
          cases hst :
              session_context_ptr.external_tables_mapping.lookup storage_id.table_name <;>
            simp [hthis, hqt, hst]

/-- C16: for a storage ID with nil UUID, non-empty table name and empty database
name, resolved in a non-global context with `ResolveExternal` requested,
`resolveStorageIDImpl` returns the global table ID of the temporary table of that
name in the first context of the search order (current, then query, then session
context, the latter two only when they are other contexts) that has one; only when
none has it does it return the ID completed with the current database, which needs
`ResolveCurrentDatabase` and a selected database, and the empty ID otherwise. -/
theorem resolveStorageIDImpl_temporary_first (heap : ContextHeap) (this : Context)
    (storage_id : StorageID) (where_ : StorageNamespace) (exception : Bool)
    (huuid : storage_id.uuid = UUIDHelpers.Nil) (htable : storage_id.table_name ≠ "")
    (hdatabase : storage_id.database_name = "") (hlocal : this.is_global_context = false)
    (hexternal : where_.ResolveExternal = true) :
    (resolveStorageIDImpl heap this storage_id where_ exception).1 =
      match firstTemporaryTable storage_id.table_name (temporaryTableSearchOrder heap this) with
      | some resolved_id => resolved_id
      | none =>
        if where_.ResolveCurrentDatabase then
          if this.current_database = "" then StorageID.createEmpty
          else { storage_id with database_name := this.current_database }
        else StorageID.createEmpty := by
  have hbool : storage_id.toBool = true := by
    simp [StorageID.toBool, htable]
  rw [← lookForExternalTable_eq_first]
  unfold resolveStorageIDImpl
  simp only [huuid, hbool, hdatabase, hlocal, hexternal, ne_eq, not_true_eq_false, if_false,
    Bool.not_true, Bool.false_eq_true, Bool.not_false, Bool.and_self, if_true]
  cases lookForExternalTable heap this storage_id with
  | some resolved_id => simp
  | none =>
    cases where_.ResolveCurrentDatabase
    · simp
    · by_cases hcurrent : this.current_database = "" <;> simp [hcurrent]

/-- Witness for C16: from the local context at address 1, `t` is found in the query
context before the session context, `s` in the session context, and `x` nowhere, so
that it is completed with the current database. -/
theorem resolveStorageIDImpl_temporary_first_witness :
    (resolveStorageIDImpl sampleHeap (sampleContext 1 false [] (some 2) (some 3))
        { database_name := "", table_name := "t", uuid := UUIDHelpers.Nil }
        { ResolveGlobal := true, ResolveCurrentDatabase := true, ResolveExternal := true }
        false).1 =
      (match firstTemporaryTable "t"
          (temporaryTableSearchOrder sampleHeap (sampleContext 1 false [] (some 2) (some 3))) with
        | some resolved_id => resolved_id
        | none =>
          if true then
            if (sampleContext 1 false [] (some 2) (some 3)).current_database = "" then
              StorageID.createEmpty
            else
              { database_name := (sampleContext 1 false [] (some 2) (some 3)).current_database
                table_name := "t", uuid := UUIDHelpers.Nil }
          else StorageID.createEmpty) ∧
      (resolveStorageIDImpl sampleHeap (sampleContext 1 false [] (some 2) (some 3))
        { database_name := "", table_name := "t", uuid := UUIDHelpers.Nil }
        { ResolveGlobal := true, ResolveCurrentDatabase := true, ResolveExternal := true }
        false).1 = (sampleHolder "t" 20).global_table_id ∧
      (resolveStorageIDImpl sampleHeap (sampleContext 1 false [] (some 2) (some 3))
        { database_name := "", table_name := "s", uuid := UUIDHelpers.Nil }
        { ResolveGlobal := true, ResolveCurrentDatabase := true, ResolveExternal := true }
        false).1 = (sampleHolder "s" 31).global_table_id ∧
      (resolveStorageIDImpl sampleHeap (sampleContext 1 false [] (some 2) (some 3))
        { database_name := "", table_name := "x", uuid := UUIDHelpers.Nil }
        { ResolveGlobal := true, ResolveCurrentDatabase := true, ResolveExternal := true }
        false).1 = { database_name := "default", table_name := "x", uuid := UUIDHelpers.Nil } :=
  ⟨resolveStorageIDImpl_temporary_first sampleHeap (sampleContext 1 false [] (some 2) (some 3))
      { database_name := "", table_name := "t", uuid := UUIDHelpers.Nil }
      { ResolveGlobal := true, ResolveCurrentDatabase := true, ResolveExternal := true }
      false rfl (by decide) rfl rfl rfl,
    by decide, by decide, by decide⟩

/-- C17: in a global context `addExternalTable`, `removeExternalTable` and
`getExternalTables` each throw `LOGICAL_ERROR` and leave the context, and with it
`external_tables_mapping`, as it was; and `resolveStorageIDImpl` returns what it
returns with every mapping emptied and `ResolveExternal` cleared, so no ID comes from
an external-tables mapping. -/
theorem global_context_has_no_external_tables (heap : ContextHeap) (this : Context)
    (hglobal : this.is_global_context = true) (table_name : String)
    (temporary_table : TemporaryTableHolder) (fuel : Nat) (storage_id : StorageID)
    (where_ : StorageNamespace) (exception : Bool) :
    this.addExternalTable table_name temporary_table =
        (this, Except.error ErrorCode.LOGICAL_ERROR) ∧
      this.removeExternalTable table_name = (this, Except.error ErrorCode.LOGICAL_ERROR) ∧
      getExternalTables heap fuel this = some (Except.error ErrorCode.LOGICAL_ERROR) ∧
      resolveStorageIDImpl heap this storage_id where_ exception =
        resolveStorageIDImpl (fun _ => none) { this with external_tables_mapping := [] }
          storage_id { where_ with ResolveExternal := false } exception := by
  refine ⟨by simp [addExternalTable, hglobal], by simp [removeExternalTable, hglobal], ?_, ?_⟩
  · cases fuel <;> simp [getExternalTables, hglobal]
  · simp [resolveStorageIDImpl, hglobal]

/-- Witness for C17: a global context that (wrongly) carries a temporary table `t`
still resolves `t` to the current database, and the three table operations throw. -/
theorem global_context_has_no_external_tables_witness :
    (sampleContext 9 true [("t", sampleHolder "t" 90)] none none).addExternalTable "u"
          (sampleHolder "u" 91) =
        (sampleContext 9 true [("t", sampleHolder "t" 90)] none none,
          Except.error ErrorCode.LOGICAL_ERROR) ∧
      (sampleContext 9 true [("t", sampleHolder "t" 90)] none none).removeExternalTable "u" =
        (sampleContext 9 true [("t", sampleHolder "t" 90)] none none,
          Except.error ErrorCode.LOGICAL_ERROR) ∧
      getExternalTables sampleHeap 3 (sampleContext 9 true [("t", sampleHolder "t" 90)] none none) =
        some (Except.error ErrorCode.LOGICAL_ERROR) ∧
      resolveStorageIDImpl sampleHeap (sampleContext 9 true [("t", sampleHolder "t" 90)] none none)
          { database_name := "", table_name := "t", uuid := UUIDHelpers.Nil }
          { ResolveGlobal := true, ResolveCurrentDatabase := true, ResolveExternal := true }
          false =
        resolveStorageIDImpl (fun _ => none)
          { sampleContext 9 true [("t", sampleHolder "t" 90)] none none with
            external_tables_mapping := [] }
          { database_name := "", table_name := "t", uuid := UUIDHelpers.Nil }
          { ResolveGlobal := true, ResolveCurrentDatabase := true, ResolveExternal := false }
          false :=
  global_context_has_no_external_tables sampleHeap
    (sampleContext 9 true [("t", sampleHolder "t" 90)] none none) rfl "u" (sampleHolder "u" 91) 3
    { database_name := "", table_name := "t", uuid := UUIDHelpers.Nil }
    { ResolveGlobal := true, ResolveCurrentDatabase := true, ResolveExternal := true } false

/-- Evaluation for C17: the global context of the witness resolves `t` to
`default.t`, not to the ID of the temporary table it carries. -/
theorem global_context_resolves_to_current_database :
    (resolveStorageIDImpl sampleHeap (sampleContext 9 true [("t", sampleHolder "t" 90)] none none)
        { database_name := "", table_name := "t", uuid := UUIDHelpers.Nil }
        { ResolveGlobal := true, ResolveCurrentDatabase := true, ResolveExternal := true }
        false).1 = { database_name := "default", table_name := "t", uuid := UUIDHelpers.Nil } := by
  decide

/-- C15, as stated, fails: with a 60 GB stream against a limit of 50 GB and a flag file
that does not exist but whose status cannot be determined, `checkCanBeDropped` does
not throw `STREAM_SIZE_EXCEEDS_MAX_DROP_SIZE_LIMIT`: the exception of `fs::exists`
leaves the function. -/
theorem checkCanBeDropped_exists_throws_counterexample :
    ((0 : Nat) < 50000000000 ∧ (50000000000 : Nat) < 60000000000) ∧
      (checkCanBeDropped (sampleContext 1 false [] none none)
          { files := [], undeletable := []
            inaccessible := ["/var/lib/proton/flags/force_drop_table"] }
          "db" "tbl" 60000000000 50000000000).outcome =
        Except.error DropFailure.filesystem_error ∧
      (checkCanBeDropped (sampleContext 1 false [] none none)
          { files := [], undeletable := []
            inaccessible := ["/var/lib/proton/flags/force_drop_table"] }
          "db" "tbl" 60000000000 50000000000).outcome ≠
        Except.error
          (DropFailure.Exception ErrorCode.STREAM_SIZE_EXCEEDS_MAX_DROP_SIZE_LIMIT) := by
  refine ⟨by decide, rfl, ?_⟩
  intro h
  have hrfl : (checkCanBeDropped (sampleContext 1 false [] none none)
      { files := [], undeletable := []
        inaccessible := ["/var/lib/proton/flags/force_drop_table"] }
      "db" "tbl" 60000000000 50000000000).outcome =
      Except.error DropFailure.filesystem_error := rfl
  rw [hrfl] at h
  cases h

/-- C15, amended: `checkCanBeDropped` returns without any file-system call whenever
`max_size_to_drop` is 0 or `size <= max_size_to_drop`.  When `max_size_to_drop > 0` and
`size > max_size_to_drop`: if the status of the flag file `force_drop_table` can be
determined, it returns exactly when the file exists and can be removed, the file
then being gone, and otherwise throws `STREAM_SIZE_EXCEEDS_MAX_DROP_SIZE_LIMIT` with the
file system as before; if the status cannot be determined, the exception of
`fs::exists` leaves the function, no removal being attempted. -/
theorem checkCanBeDropped_outcome (this : Context) (file_system : FileSystem)
    (database table : String) (size max_size_to_drop : Nat) :
    ((max_size_to_drop = 0 ∨ size ≤ max_size_to_drop) →
      (checkCanBeDropped this file_system database table size max_size_to_drop).outcome =
          Except.ok () ∧
        (checkCanBeDropped this file_system database table size max_size_to_drop).calls = [] ∧
        (checkCanBeDropped this file_system database table size max_size_to_drop).file_system =
          file_system) ∧
    ((0 < max_size_to_drop ∧ max_size_to_drop < size) →
      (this.flags_path ++ "force_drop_table" ∉ file_system.inaccessible →
        ((this.flags_path ++ "force_drop_table" ∈ file_system.files ∧
            this.flags_path ++ "force_drop_table" ∉ file_system.undeletable) →
          (checkCanBeDropped this file_system database table size max_size_to_drop).outcome =
              Except.ok () ∧
            this.flags_path ++ "force_drop_table" ∉
              (checkCanBeDropped this file_system database table size
                max_size_to_drop).file_system.files) ∧
        (¬ (this.flags_path ++ "force_drop_table" ∈ file_system.files ∧
            this.flags_path ++ "force_drop_table" ∉ file_system.undeletable) →
          (checkCanBeDropped this file_system database table size max_size_to_drop).outcome =
              Except.error
                (DropFailure.Exception ErrorCode.STREAM_SIZE_EXCEEDS_MAX_DROP_SIZE_LIMIT) ∧
            (checkCanBeDropped this file_system database table size
              max_size_to_drop).file_system = file_system)) ∧
      (this.flags_path ++ "force_drop_table" ∈ file_system.inaccessible →
        (checkCanBeDropped this file_system database table size max_size_to_drop).outcome =
            Except.error DropFailure.filesystem_error ∧
          (checkCanBeDropped this file_system database table size max_size_to_drop).calls =
            [FileSystemCall.fs_exists (this.flags_path ++ "force_drop_table")] ∧
          (checkCanBeDropped this file_system database table size
            max_size_to_drop).file_system = file_system)) := by
  constructor
  · intro h
    simp [checkCanBeDropped, h]
  · rintro ⟨hpos, hlt⟩
    have hguard : ¬ (max_size_to_drop = 0 ∨ size ≤ max_size_to_drop) := by omega
    refine ⟨?_, ?_⟩
    · intro haccessible
      constructor
      · rintro ⟨hfile, hremovable⟩
        simp [checkCanBeDropped, hguard, haccessible, hfile, hremovable]
      · intro hno
        by_cases hfile : this.flags_path ++ "force_drop_table" ∈ file_system.files
        · have hstuck : this.flags_path ++ "force_drop_table" ∈ file_system.undeletable := by
            by_contra hremovable
            exact hno ⟨hfile, hremovable⟩
          simp [checkCanBeDropped, hguard, haccessible, hfile, hstuck]
        · simp [checkCanBeDropped, hguard, haccessible, hfile]
    · intro hblocked
      simp [checkCanBeDropped, hguard, hblocked]

/-- Witness for the amended C15: a 60 GB stream against the default limit of 50 GB is
dropped when the flag file exists, which removes the file, refused when it does not,
and fails with the file-system error when the file cannot be examined; a 1 GB stream
is dropped without a look at the file system. -/
theorem checkCanBeDropped_outcome_witness :
    ((checkCanBeDropped (sampleContext 1 false [] none none)
          { files := ["/var/lib/proton/flags/force_drop_table"], undeletable := []
            inaccessible := [] }
          "db" "tbl" 60000000000 50000000000).outcome = Except.ok () ∧
        "/var/lib/proton/flags/" ++ "force_drop_table" ∉
          (checkCanBeDropped (sampleContext 1 false [] none none)
            { files := ["/var/lib/proton/flags/force_drop_table"], undeletable := []
              inaccessible := [] }
            "db" "tbl" 60000000000 50000000000).file_system.files) ∧
      ((checkCanBeDropped (sampleContext 1 false [] none none)
          { files := [], undeletable := [], inaccessible := [] } "db" "tbl" 60000000000
            50000000000).outcome =
          Except.error
            (DropFailure.Exception ErrorCode.STREAM_SIZE_EXCEEDS_MAX_DROP_SIZE_LIMIT) ∧
        (checkCanBeDropped (sampleContext 1 false [] none none)
          { files := [], undeletable := [], inaccessible := [] } "db" "tbl" 60000000000
            50000000000).file_system = { files := [], undeletable := [], inaccessible := [] }) ∧
      ((checkCanBeDropped (sampleContext 1 false [] none none)
          { files := ["/var/lib/proton/flags/force_drop_table"], undeletable := []
            inaccessible := ["/var/lib/proton/flags/force_drop_table"] }
          "db" "tbl" 60000000000 50000000000).outcome =
          Except.error DropFailure.filesystem_error ∧
        (checkCanBeDropped (sampleContext 1 false [] none none)
          { files := ["/var/lib/proton/flags/force_drop_table"], undeletable := []
            inaccessible := ["/var/lib/proton/flags/force_drop_table"] }
          "db" "tbl" 60000000000 50000000000).calls =
          [FileSystemCall.fs_exists ("/var/lib/proton/flags/" ++ "force_drop_table")] ∧
        (checkCanBeDropped (sampleContext 1 false [] none none)
          { files := ["/var/lib/proton/flags/force_drop_table"], undeletable := []
            inaccessible := ["/var/lib/proton/flags/force_drop_table"] }
          "db" "tbl" 60000000000 50000000000).file_system =
          { files := ["/var/lib/proton/flags/force_drop_table"], undeletable := []
            inaccessible := ["/var/lib/proton/flags/force_drop_table"] }) ∧
      ((checkCanBeDropped (sampleContext 1 false [] none none)
          { files := [], undeletable := [], inaccessible := [] } "db" "tbl" 1000000000
            50000000000).outcome = Except.ok () ∧
        (checkCanBeDropped (sampleContext 1 false [] none none)
          { files := [], undeletable := [], inaccessible := [] } "db" "tbl" 1000000000
            50000000000).calls = [] ∧
        (checkCanBeDropped (sampleContext 1 false [] none none)
          { files := [], undeletable := [], inaccessible := [] } "db" "tbl" 1000000000
            50000000000).file_system = { files := [], undeletable := [], inaccessible := [] }) :=
  ⟨(((checkCanBeDropped_outcome (sampleContext 1 false [] none none)
        { files := ["/var/lib/proton/flags/force_drop_table"], undeletable := []
          inaccessible := [] }
        "db" "tbl" 60000000000 50000000000).2 (by decide)).1 (by decide)).1 (by decide),
    (((checkCanBeDropped_outcome (sampleContext 1 false [] none none)
        { files := [], undeletable := [], inaccessible := [] } "db" "tbl" 60000000000
        50000000000).2 (by decide)).1 (by decide)).2 (by decide),
    ((checkCanBeDropped_outcome (sampleContext 1 false [] none none)
        { files := ["/var/lib/proton/flags/force_drop_table"], undeletable := []
          inaccessible := ["/var/lib/proton/flags/force_drop_table"] }
        "db" "tbl" 60000000000 50000000000).2 (by decide)).2 (by decide),
    (checkCanBeDropped_outcome (sampleContext 1 false [] none none)
        { files := [], undeletable := [], inaccessible := [] } "db" "tbl" 1000000000
        50000000000).1 (by decide)⟩

/-- C18: with both read-method names valid, `getReadSettings` throws
`INVALID_SETTING_VALUE` whenever `max_read_buffer_size` is 0 and returns whenever it is
not; and whenever it returns, `local_fs_buffer_size` equals `max_read_buffer_size` and
is not zero. -/
theorem getReadSettings_read_buffer (enum_cast : ReadMethodNames) (this : Context)
    (local_method remote_method : Nat)
    (hlocal : enum_cast.local_fs this.settings.local_filesystem_read_method =
      some local_method)
    (hremote : enum_cast.remote_fs this.settings.remote_filesystem_read_method =
      some remote_method) :
    (this.settings.max_read_buffer_size = 0 →
      getReadSettings enum_cast this = Except.error ErrorCode.INVALID_SETTING_VALUE) ∧
    (this.settings.max_read_buffer_size ≠ 0 →
      ∃ res after, getReadSettings enum_cast this = Except.ok (res, after)) ∧
    (∀ res after, getReadSettings enum_cast this = Except.ok (res, after) →
      res.local_fs_buffer_size = this.settings.max_read_buffer_size ∧
        res.local_fs_buffer_size ≠ 0) := by
  refine ⟨?_, ?_, ?_⟩
  · intro hzero
    simp [getReadSettings, hlocal, hremote, hzero]
  · intro hpositive
    simp only [getReadSettings, hlocal, hremote, hpositive, if_false]
    exact ⟨_, _, rfl⟩
  · intro res after h
    by_cases hzero : this.settings.max_read_buffer_size = 0
    · simp [getReadSettings, hlocal, hremote, hzero] at h
    · simp only [getReadSettings, hlocal, hremote, hzero, if_false, Except.ok.injEq,
        Prod.mk.injEq] at h
      rw [← h.1]
      exact ⟨rfl, hzero⟩

/-- Witness for C18: a zero read buffer is refused, and a buffer of 1 MiB is carried
into `local_fs_buffer_size`. -/
theorem getReadSettings_read_buffer_witness :
    getReadSettings sampleReadMethodNames (sampleReadContext 0) =
        Except.error ErrorCode.INVALID_SETTING_VALUE ∧
      (∃ res after,
        getReadSettings sampleReadMethodNames (sampleReadContext 1048576) =
          Except.ok (res, after)) ∧
      ∀ res after,
        getReadSettings sampleReadMethodNames (sampleReadContext 1048576) =
            Except.ok (res, after) →
          res.local_fs_buffer_size = (sampleReadContext 1048576).settings.max_read_buffer_size ∧
            res.local_fs_buffer_size ≠ 0 :=
  ⟨(getReadSettings_read_buffer sampleReadMethodNames (sampleReadContext 0) 1 1 (by decide)
      (by decide)).1 rfl,
    (getReadSettings_read_buffer sampleReadMethodNames (sampleReadContext 1048576) 1 1
      (by decide) (by decide)).2.1 (by decide),
    (getReadSettings_read_buffer sampleReadMethodNames (sampleReadContext 1048576) 1 1
      (by decide) (by decide)).2.2⟩

end Context

/-! ## Properties of the query status poll ID -/

/-- The separator, character by character. -/
theorem pollIdSeparator_eq : pollIdSeparator = ['!', Char.ofNat 96, '$'] := by
  decide

/-- Unfolding of `splitLiteral` at a character outside a match. -/
theorem splitLiteral_zero_cons (sep : List Char) (c : Char) (rest : List Char) :
    splitLiteral sep 0 (c :: rest) =
      if sep.isPrefixOf (c :: rest) then [] :: splitLiteral sep (sep.length - 1) rest
      else
        match splitLiteral sep 0 rest with
        | [] => [[c]]
        | piece :: pieces => (c :: piece) :: pieces := by
  rw [splitLiteral]

/-- Passing over a matched separator of three characters. -/
theorem splitLiteral_after_match (a b c : Char) (rest : List Char) :
    splitLiteral [a, b, c] 0 ([a, b, c] ++ rest) = [] :: splitLiteral [a, b, c] 0 rest := by
  simp [splitLiteral, List.isPrefixOf]

/-- A text without the separator is a single piece. -/
theorem splitLiteral_free (a b c : Char) (component : List Char)
    (hfree : ¬ [a, b, c] <:+: component) :
    splitLiteral [a, b, c] 0 component = [component] := by
  induction component with
  | nil => simp [splitLiteral]
  | cons x xs ih =>
    have hxs : ¬ [a, b, c] <:+: xs := fun h => hfree (List.infix_cons h)
    have hstart : [a, b, c].isPrefixOf (x :: xs) = false := by
      cases h : [a, b, c].isPrefixOf (x :: xs)
      · rfl
      · exact absurd (List.isPrefixOf_iff_prefix.mp h).isInfix hfree
    simp [splitLiteral, hstart, ih hxs]

/-- A component without the separator, followed by the separator, is cut off as the
first piece; the first character of the separator differing from the other two, no
occurrence straddles the end of the component. -/
theorem splitLiteral_component (a b c : Char) (hab : a ≠ b) (hac : a ≠ c)
    (component rest : List Char) (hfree : ¬ [a, b, c] <:+: component) :
    splitLiteral [a, b, c] 0 (component ++ [a, b, c] ++ rest) =
      component :: splitLiteral [a, b, c] 0 rest := by
  induction component with
  | nil => simpa using splitLiteral_after_match a b c rest
  | cons x xs ih =>
    have hxs : ¬ [a, b, c] <:+: xs := fun h => hfree (List.infix_cons h)
    have hstart : [a, b, c].isPrefixOf (x :: xs ++ [a, b, c] ++ rest) = false := by
      cases h : [a, b, c].isPrefixOf (x :: xs ++ [a, b, c] ++ rest)
      · rfl
      · exfalso
        match xs, hfree with
        | [], _ =>
          simp [List.isPrefixOf] at h
          exact hab h.2.1.symm
        | [y], _ =>
          simp [List.isPrefixOf] at h
          exact hac h.2.2.symm
        | y :: z :: tail, hfree =>
          simp [List.isPrefixOf] at h
          apply hfree
          rw [h.1, h.2.1, h.2.2]
          exact (List.prefix_append [x, y, z] tail).isInfix
    show splitLiteral [a, b, c] 0 (x :: (xs ++ [a, b, c] ++ rest)) = _
    rw [splitLiteral_zero_cons]
    simp only [List.cons_append] at hstart
    rw [hstart, ih hxs]
    rfl

/-- A text without delimiter is a single piece. -/
theorem splitAnyOf_free (delimiter : Char → Bool) (text : List Char)
    (hfree : ∀ c ∈ text, delimiter c = false) : splitAnyOf delimiter text = [text] := by
  induction text with
  | nil => simp [splitAnyOf]
  | cons x xs ih =>
    have hx : delimiter x = false := hfree x (List.mem_cons_self x xs)
    have hxs := ih (fun c hc => hfree c (List.mem_cons_of_mem x hc))
    simp [splitAnyOf, hx, hxs]

/-- A text without delimiter, followed by a delimiter, is cut off as the first
piece. -/
theorem splitAnyOf_cut (delimiter : Char → Bool) (text rest : List Char) (d : Char)
    (hfree : ∀ c ∈ text, delimiter c = false) (hd : delimiter d = true) :
    splitAnyOf delimiter (text ++ d :: rest) = text :: splitAnyOf delimiter rest := by
  induction text with
  | nil => simp [splitAnyOf, hd]
  | cons x xs ih =>
    have hx : delimiter x = false := hfree x (List.mem_cons_self x xs)
    have hxs := ih (fun c hc => hfree c (List.mem_cons_of_mem x hc))
    simp [splitAnyOf, hx, hxs]

/-- A text of ASCII characters has as many bytes as characters. -/
theorem utf8ByteSize_ascii (text : List Char) (h : ∀ c ∈ text, c.toNat < 128) :
    (String.mk text).utf8ByteSize = text.length := by
  show String.utf8ByteSize.go text = text.length
  induction text with
  | nil => rfl
  | cons c cs ih =>
    have hc : c.utf8Size = 1 := by
      have hle : c.val ≤ UInt32.ofNatCore 127 (by decide) := by
        rw [UInt32.le_def]
        exact Nat.le_of_lt_succ (h c (List.mem_cons_self c cs))
      unfold Char.utf8Size
      simp only []
      rw [if_pos hle]
    rw [String.utf8ByteSize.go, ih (fun x hx => h x (List.mem_cons_of_mem c hx)), hc,
      List.length_cons]

/-- Splitting the joined components of a poll ID at the separator gives the components
back, provided none of them contains the separator. -/
theorem splitLiteral_joinComponents (c0 c1 c2 c3 c4 c5 : List Char)
    (hsep : ∀ component ∈ [c0, c1, c2, c3, c4, c5], ¬ pollIdSeparator <:+: component) :
    splitLiteral pollIdSeparator 0 (joinComponents pollIdSeparator [c0, c1, c2, c3, c4, c5]) =
      [c0, c1, c2, c3, c4, c5] := by
  rw [pollIdSeparator_eq] at hsep ⊢
  have hab : '!' ≠ Char.ofNat 96 := by decide
  have hac : '!' ≠ '$' := by decide
  simp only [joinComponents]
  rw [splitLiteral_component _ _ _ hab hac c0 _ (hsep c0 (by simp)),
    splitLiteral_component _ _ _ hab hac c1 _ (hsep c1 (by simp)),
    splitLiteral_component _ _ _ hab hac c2 _ (hsep c2 (by simp)),
    splitLiteral_component _ _ _ hab hac c3 _ (hsep c3 (by simp)),
    splitLiteral_component _ _ _ hab hac c4 _ (hsep c4 (by simp)),
    splitLiteral_free _ _ _ c5 (hsep c5 (by simp))]

namespace Context

/-- C14: poll-ID round trip.  When `setupQueryStatusPollId` runs in a context without
poll ID, the poll ID it stores is the Base64 text of the six components joined by
the separator; if that text has at most 512 characters, no component contains the
separator, neither the database nor the table name contains a dot, and the codec
decodes this text back without having shortened it, then `parseQueryStatusPollId` run
by the same user returns exactly the seven strings query ID, database, table, user,
node identity, block base ID and timestamp, in that order. -/
theorem parseQueryStatusPollId_round_trip (codec : Base64Codec) (this reader : Context)
    (block_base_id_ now : Nat) (hfresh : this.query_status_poll_id = "")
    (huser : reader.user_name = this.user_name)
    (hround : codec.decode (codec.encode
        (joinComponents pollIdSeparator (pollIdComponents this block_base_id_ now))) =
      joinComponents pollIdSeparator (pollIdComponents this block_base_id_ now))
    (hshort : (joinComponents pollIdSeparator (pollIdComponents this block_base_id_ now)).length ≤
      (codec.encode
        (joinComponents pollIdSeparator (pollIdComponents this block_base_id_ now))).length)
    (hlen : (codec.encode
        (joinComponents pollIdSeparator (pollIdComponents this block_base_id_ now))).length ≤ 512)
    (hsep : ∀ component ∈ pollIdComponents this block_base_id_ now,
      ¬ pollIdSeparator <:+: component)
    (hdb : '.' ∉ this.insertion_table.database_name.data)
    (htbl : '.' ∉ this.insertion_table.table_name.data) :
    (setupQueryStatusPollId codec this block_base_id_ now).query_status_poll_id =
        String.mk (codec.encode
          (joinComponents pollIdSeparator (pollIdComponents this block_base_id_ now))) ∧
      parseQueryStatusPollId codec reader
          (setupQueryStatusPollId codec this block_base_id_ now).query_status_poll_id =
        Except.ok
          [this.current_query_id, this.insertion_table.database_name,
           this.insertion_table.table_name, this.user_name, this.node_identity,
           toString block_base_id_, toString now] := by
  have hid : (setupQueryStatusPollId codec this block_base_id_ now).query_status_poll_id =
      String.mk (codec.encode
        (joinComponents pollIdSeparator (pollIdComponents this block_base_id_ now))) := by
    simp [setupQueryStatusPollId, hfresh]
  refine ⟨hid, ?_⟩
  rw [hid]
  have htake : (joinComponents pollIdSeparator (pollIdComponents this block_base_id_ now)).take
      512 = joinComponents pollIdSeparator (pollIdComponents this block_base_id_ now) :=
    List.take_of_length_le (le_trans hshort hlen)
  have hsplit := splitLiteral_joinComponents this.current_query_id.data
    this.insertion_table.getFullNameNotQuoted.data this.user_name.data this.node_identity.data
    (toString block_base_id_).data (toString now).data hsep
  have hnames : splitAnyOf (fun c => decide (c = '.'))
      this.insertion_table.getFullNameNotQuoted.data =
      [this.insertion_table.database_name.data, this.insertion_table.table_name.data] := by
    have hfull : this.insertion_table.getFullNameNotQuoted.data =
        this.insertion_table.database_name.data ++
          '.' :: this.insertion_table.table_name.data := by
      simp [StorageID.getFullNameNotQuoted, String.data_append]
    rw [hfull, splitAnyOf_cut _ _ _ '.' (fun c hc => by
        simp only [decide_eq_false_iff_not]
        rintro rfl
        exact hdb hc) (by simp),
      splitAnyOf_free _ _ (fun c hc => by
        simp only [decide_eq_false_iff_not]
        rintro rfl
        exact htbl hc)]
  unfold parseQueryStatusPollId
  have hbytes := utf8ByteSize_ascii
    (codec.encode (joinComponents pollIdSeparator (pollIdComponents this block_base_id_ now)))
    (codec.encode_ascii _)
  have hnot : ¬ (String.mk (codec.encode
      (joinComponents pollIdSeparator (pollIdComponents this block_base_id_ now)))).utf8ByteSize >
        512 := by omega
  simp only [hnot, if_false, hround, htake]
  unfold pollIdComponents at hsplit ⊢
  rw [hsplit]
  simp only [huser, ne_eq, not_true_eq_false, if_false, hnames]

set_option maxRecDepth 8000 in
/-- The guard of `parseQueryStatusPollId` counts bytes: a poll ID of 300 two-byte
characters is refused although it has fewer than 512 characters. -/
theorem parseQueryStatusPollId_counts_bytes :
    (String.mk (List.replicate 300 (Char.ofNat 233))).length = 300 ∧
      parseQueryStatusPollId standardBase64 (sampleContext 1 false [] none none)
          (String.mk (List.replicate 300 (Char.ofNat 233))) =
        Except.error ErrorCode.BAD_ARGUMENTS :=
  ⟨by simp [String.length], rfl⟩

/-- Witness for C14: query `q-17` of user `alice` inserting into `db.tbl` on `node-1`,
block base ID 42, clock 1700000000, with the standard Base64 codec. -/
theorem parseQueryStatusPollId_round_trip_witness :
    (setupQueryStatusPollId standardBase64 (sampleContext 1 false [] none none) 42
          1700000000).query_status_poll_id =
        "cS0xNyFgJGRiLnRibCFgJGFsaWNlIWAkbm9kZS0xIWAkNDIhYCQxNzAwMDAwMDAw" ∧
      parseQueryStatusPollId standardBase64 (sampleContext 2 false [] none none)
          (setupQueryStatusPollId standardBase64 (sampleContext 1 false [] none none) 42
            1700000000).query_status_poll_id =
        Except.ok ["q-17", "db", "tbl", "alice", "node-1", "42", "1700000000"] :=
  parseQueryStatusPollId_round_trip standardBase64 (sampleContext 1 false [] none none)
    (sampleContext 2 false [] none none) 42 1700000000 rfl rfl (by decide) (by decide)
    (by decide) (by decide) (by decide) (by decide)

end Context

end DB
